import Mathlib

/-!
Verification of core components of the rros RISC-V kernel.

The Rust sources are embedded shallowly: machine words (`u64`, `usize`) become
`Nat` with explicit masking where overflow or bitwise complement matters,
fallible or panicking code returns `Except Fault`, and the mutable state of a
component becomes an explicit state value threaded through its operations.
Lock tokens and level-typestate witnesses are erased: they are zero-sized
compile-time artifacts that carry no run-time data, so operations that in Rust
consume and return tokens simply act on the state here.
-/

namespace RROS

/-- Mask of a 64-bit machine word (`u64::MAX`). -/
def U64_MASK : Nat := 2 ^ 64 - 1

/-- Rust bitwise complement on `u64`: `!x = u64::MAX ^ x` for `x < 2^64`. -/
def complement64 (x : Nat) : Nat := U64_MASK ^^^ x

/-- Errors of `src/mm/error.rs` together with the `InvalidAddress` variant used
by `src/mm/mapping.rs`. -/
inductive MemoryError where
  | OutOfMemory
  | AddressAlreadyInUse
  | NoSuchAddress
  | InvalidAddress
deriving DecidableEq, Repr

/-- Outcome of a fallible kernel operation: a typed `Err` return or a Rust
`panic!`/`assert!`/`todo!` abort. -/
inductive Fault where
  | memErr (e : MemoryError)
  | panicked
deriving DecidableEq, Repr

namespace PageTableEntry

/-- Bit offsets of the `Offset` enum in `src/mm/pte.rs`. -/
def offV : Nat := 0

/-- Offset of the `R` bit. -/
def offR : Nat := 1

/-- Offset of the `W` bit. -/
def offW : Nat := 2

/-- Offset of the `X` bit. -/
def offX : Nat := 3

/-- Offset of the `U` bit. -/
def offU : Nat := 4

/-- Offset of the `G` bit. -/
def offG : Nat := 5

/-- Offset of the `A` bit. -/
def offA : Nat := 6

/-- Offset of the `D` bit. -/
def offD : Nat := 7

/-- Offset of the `PPN` field. -/
def offPPN : Nat := 10

/-- `PHYSICAL_PAGE_NUMBER_SIZE = 1 << 44` from `src/mm/pte.rs`. -/
def PPN_SIZE : Nat := 1 <<< 44

/-- `PageTableEntry::is_valid`. -/
def isValid (pte : Nat) : Bool := pte &&& (1 <<< offV) != 0

/-- `PageTableEntry::mark_as_valid`. -/
def markAsValid (pte : Nat) (valid : Bool) : Nat :=
  match valid with
  | true => pte ||| (1 <<< offV)
  | false => pte &&& complement64 (1 <<< offV)

/-- `PageTableEntry::is_readable`. -/
def isReadable (pte : Nat) : Bool := pte &&& (1 <<< offR) != 0

/-- `PageTableEntry::mark_as_readable`. -/
def markAsReadable (pte : Nat) (readable : Bool) : Nat :=
  match readable with
  | true => pte ||| (1 <<< offR)
  | false => pte &&& complement64 (1 <<< offR)

/-- `PageTableEntry::is_writable`. -/
def isWritable (pte : Nat) : Bool := pte &&& (1 <<< offW) != 0

/-- `PageTableEntry::mark_as_writable`. -/
def markAsWritable (pte : Nat) (writable : Bool) : Nat :=
  match writable with
  | true => pte ||| (1 <<< offW)
  | false => pte &&& complement64 (1 <<< offW)

/-- `PageTableEntry::is_executable`. -/
def isExecutable (pte : Nat) : Bool := pte &&& (1 <<< offX) != 0

/-- `PageTableEntry::mark_as_executable`. -/
def markAsExecutable (pte : Nat) (executable : Bool) : Nat :=
  match executable with
  | true => pte ||| (1 <<< offX)
  | false => pte &&& complement64 (1 <<< offX)

/-- `PageTableEntry::is_inner_page_table`: no `R`/`W`/`X` bit set. -/
def isInnerPageTable (pte : Nat) : Bool :=
  !isReadable pte && !isWritable pte && !isExecutable pte

/-- `PageTableEntry::is_user_accessible`. -/
def isUserAccessible (pte : Nat) : Bool := pte &&& (1 <<< offU) != 0

/-- `PageTableEntry::mark_as_user_accessible`. -/
def markAsUserAccessible (pte : Nat) (userAccessible : Bool) : Nat :=
  match userAccessible with
  | true => pte ||| (1 <<< offU)
  | false => pte &&& complement64 (1 <<< offU)

/-- `PageTableEntry::is_accessed`. -/
def isAccessed (pte : Nat) : Bool := pte &&& (1 <<< offA) != 0

/-- `PageTableEntry::clear_access_flag`: the only mutator of the `A` bit. -/
def clearAccessFlag (pte : Nat) : Nat := pte &&& complement64 (1 <<< offA)

/-- `PageTableEntry::is_dirty`. -/
def isDirty (pte : Nat) : Bool := pte &&& (1 <<< offD) != 0

/-- `PageTableEntry::clear_dirty_flag`: the only mutator of the `D` bit. -/
def clearDirtyFlag (pte : Nat) : Nat := pte &&& complement64 (1 <<< offD)

/-- `PageTableEntry::get_physical_page_number`. -/
def getPhysicalPageNumber (pte : Nat) : Nat :=
  (pte >>> offPPN) &&& (PPN_SIZE - 1)

/-- Word produced by `PageTableEntry::set_physical_page_number` once the 44-bit
range check has passed: clear the `PPN` field, then or in the address. -/
def setPPNWord (pte physAddr : Nat) : Nat :=
  (pte &&& complement64 ((PPN_SIZE - 1) <<< offPPN)) ||| (physAddr <<< offPPN)

/-- `PageTableEntry::set_physical_page_number`, including its panic when the
address does not fit into 44 bits. -/
def setPhysicalPageNumber (pte physAddr : Nat) : Except Fault Nat :=
  if physAddr < PPN_SIZE then .ok (setPPNWord pte physAddr)
  else .error .panicked

end PageTableEntry

section BitLemmas

open PageTableEntry

theorem and_one_shiftLeft_ne_zero (n k : Nat) :
    (n &&& (1 <<< k) != 0) = n.testBit k := by
  rw [Nat.one_shiftLeft, Nat.and_two_pow]
  cases h : n.testBit k <;> simp [h]

theorem testBit_or_one_shiftLeft (n k j : Nat) :
    (n ||| (1 <<< k)).testBit j = (n.testBit j || decide (j = k)) := by
  rw [Nat.testBit_lor, Nat.one_shiftLeft, Nat.testBit_two_pow]
  by_cases h : j = k
  · simp [h]
  · simp [h, Ne.symm h]

theorem testBit_and_complement_one (n k j : Nat) (hj : j < 64) :
    (n &&& complement64 (1 <<< k)).testBit j = (n.testBit j && !decide (j = k)) := by
  rw [complement64, U64_MASK, Nat.testBit_land, Nat.testBit_xor, Nat.one_shiftLeft,
    Nat.testBit_two_pow, Nat.testBit_two_pow_sub_one]
  by_cases h : j = k
  · subst h
    simp [hj]
  · simp [hj, h, Ne.symm h]

theorem testBit_setPPNWord (n p j : Nat) (hj : j < 64) :
    (setPPNWord n p).testBit j =
      ((n.testBit j && !(decide (10 ≤ j) && decide (j - 10 < 44))) ||
        (decide (10 ≤ j) && p.testBit (j - 10))) := by
  rw [setPPNWord, offPPN, PPN_SIZE, Nat.testBit_lor, Nat.testBit_land, complement64, U64_MASK,
    Nat.testBit_xor, Nat.testBit_shiftLeft, Nat.testBit_shiftLeft, Nat.one_shiftLeft,
    Nat.testBit_two_pow_sub_one, Nat.testBit_two_pow_sub_one]
  by_cases h10 : 10 ≤ j
  · by_cases h44 : j - 10 < 44
    · simp [h10, h44, hj]
    · simp [h10, h44, hj]
  · simp [h10, hj]

theorem getPPN_testBit (n i : Nat) :
    (getPhysicalPageNumber n).testBit i = (n.testBit (10 + i) && decide (i < 44)) := by
  rw [getPhysicalPageNumber, offPPN, PPN_SIZE, Nat.testBit_land, Nat.testBit_shiftRight,
    Nat.one_shiftLeft, Nat.testBit_two_pow_sub_one]

theorem PPN_SIZE_eq : PPN_SIZE = 2 ^ 44 := by
  rw [PPN_SIZE, Nat.one_shiftLeft]

theorem isValid_eq (n : Nat) : isValid n = n.testBit 0 := by
  rw [isValid, offV, and_one_shiftLeft_ne_zero]

theorem isReadable_eq (n : Nat) : isReadable n = n.testBit 1 := by
  rw [isReadable, offR, and_one_shiftLeft_ne_zero]

theorem isWritable_eq (n : Nat) : isWritable n = n.testBit 2 := by
  rw [isWritable, offW, and_one_shiftLeft_ne_zero]

theorem isExecutable_eq (n : Nat) : isExecutable n = n.testBit 3 := by
  rw [isExecutable, offX, and_one_shiftLeft_ne_zero]

theorem isUserAccessible_eq (n : Nat) : isUserAccessible n = n.testBit 4 := by
  rw [isUserAccessible, offU, and_one_shiftLeft_ne_zero]

theorem isAccessed_eq (n : Nat) : isAccessed n = n.testBit 6 := by
  rw [isAccessed, offA, and_one_shiftLeft_ne_zero]

theorem isDirty_eq (n : Nat) : isDirty n = n.testBit 7 := by
  rw [isDirty, offD, and_one_shiftLeft_ne_zero]

theorem testBit_setPPNWord_low (n p j : Nat) (hj : j < 10) :
    (setPPNWord n p).testBit j = n.testBit j := by
  rw [testBit_setPPNWord _ _ _ (by omega)]
  have h10 : ¬(10 ≤ j) := by omega
  simp [h10]

theorem getPPN_setPPNWord (n p : Nat) (hp : p < PPN_SIZE) :
    getPhysicalPageNumber (setPPNWord n p) = p := by
  apply Nat.eq_of_testBit_eq
  intro i
  rw [getPPN_testBit]
  by_cases hi : i < 44
  · rw [testBit_setPPNWord _ _ _ (by omega)]
    have h10 : 10 ≤ 10 + i := by omega
    have hsub : 10 + i - 10 = i := by omega
    simp [h10, hsub, hi]
  · have hp2 : p < 2 ^ i := by
      calc p < PPN_SIZE := hp
        _ = 2 ^ 44 := PPN_SIZE_eq
        _ ≤ 2 ^ i := Nat.pow_le_pow_right (by norm_num) (by omega)
    simp [hi, Nat.testBit_eq_false_of_lt hp2]

theorem getPPN_or_one (n k : Nat) (hk : k < 10) :
    getPhysicalPageNumber (n ||| (1 <<< k)) = getPhysicalPageNumber n := by
  apply Nat.eq_of_testBit_eq
  intro i
  rw [getPPN_testBit, getPPN_testBit, testBit_or_one_shiftLeft]
  have hne : ¬(10 + i = k) := by omega
  simp [hne]

theorem getPPN_and_complement_one (n k : Nat) (hk : k < 10) :
    getPhysicalPageNumber (n &&& complement64 (1 <<< k)) = getPhysicalPageNumber n := by
  apply Nat.eq_of_testBit_eq
  intro i
  rw [getPPN_testBit, getPPN_testBit]
  by_cases hi : i < 44
  · rw [testBit_and_complement_one _ _ _ (by omega)]
    have hne : ¬(10 + i = k) := by omega
    simp [hne]
  · simp [hi]

end BitLemmas

section FieldOpLemmas

open PageTableEntry

theorem isValid_markAsValid (n : Nat) (b : Bool) : isValid (markAsValid n b) = b := by
  cases b
  · simp only [markAsValid]
    rw [isValid_eq, testBit_and_complement_one _ _ _ (by decide)]
    simp [offV]
  · simp only [markAsValid]
    rw [isValid_eq, testBit_or_one_shiftLeft]
    simp [offV]

theorem isReadable_markAsReadable (n : Nat) (b : Bool) : isReadable (markAsReadable n b) = b := by
  cases b
  · simp only [markAsReadable]
    rw [isReadable_eq, testBit_and_complement_one _ _ _ (by decide)]
    simp [offR]
  · simp only [markAsReadable]
    rw [isReadable_eq, testBit_or_one_shiftLeft]
    simp [offR]

theorem isWritable_markAsWritable (n : Nat) (b : Bool) : isWritable (markAsWritable n b) = b := by
  cases b
  · simp only [markAsWritable]
    rw [isWritable_eq, testBit_and_complement_one _ _ _ (by decide)]
    simp [offW]
  · simp only [markAsWritable]
    rw [isWritable_eq, testBit_or_one_shiftLeft]
    simp [offW]

theorem isExecutable_markAsExecutable (n : Nat) (b : Bool) : isExecutable (markAsExecutable n b) = b := by
  cases b
  · simp only [markAsExecutable]
    rw [isExecutable_eq, testBit_and_complement_one _ _ _ (by decide)]
    simp [offX]
  · simp only [markAsExecutable]
    rw [isExecutable_eq, testBit_or_one_shiftLeft]
    simp [offX]

theorem isUserAccessible_markAsUserAccessible (n : Nat) (b : Bool) : isUserAccessible (markAsUserAccessible n b) = b := by
  cases b
  · simp only [markAsUserAccessible]
    rw [isUserAccessible_eq, testBit_and_complement_one _ _ _ (by decide)]
    simp [offU]
  · simp only [markAsUserAccessible]
    rw [isUserAccessible_eq, testBit_or_one_shiftLeft]
    simp [offU]

theorem isReadable_markAsWritable (n : Nat) (b : Bool) : isReadable (markAsWritable n b) = isReadable n := by
  cases b
  · simp only [markAsWritable]
    rw [isReadable_eq, testBit_and_complement_one _ _ _ (by decide)]
    simp [offW, isReadable_eq]
  · simp only [markAsWritable]
    rw [isReadable_eq, testBit_or_one_shiftLeft]
    simp [offW, isReadable_eq]

theorem isReadable_markAsExecutable (n : Nat) (b : Bool) : isReadable (markAsExecutable n b) = isReadable n := by
  cases b
  · simp only [markAsExecutable]
    rw [isReadable_eq, testBit_and_complement_one _ _ _ (by decide)]
    simp [offX, isReadable_eq]
  · simp only [markAsExecutable]
    rw [isReadable_eq, testBit_or_one_shiftLeft]
    simp [offX, isReadable_eq]

theorem isReadable_markAsUserAccessible (n : Nat) (b : Bool) : isReadable (markAsUserAccessible n b) = isReadable n := by
  cases b
  · simp only [markAsUserAccessible]
    rw [isReadable_eq, testBit_and_complement_one _ _ _ (by decide)]
    simp [offU, isReadable_eq]
  · simp only [markAsUserAccessible]
    rw [isReadable_eq, testBit_or_one_shiftLeft]
    simp [offU, isReadable_eq]

theorem isReadable_markAsValid (n : Nat) (b : Bool) : isReadable (markAsValid n b) = isReadable n := by
  cases b
  · simp only [markAsValid]
    rw [isReadable_eq, testBit_and_complement_one _ _ _ (by decide)]
    simp [offV, isReadable_eq]
  · simp only [markAsValid]
    rw [isReadable_eq, testBit_or_one_shiftLeft]
    simp [offV, isReadable_eq]

theorem isWritable_markAsExecutable (n : Nat) (b : Bool) : isWritable (markAsExecutable n b) = isWritable n := by
  cases b
  · simp only [markAsExecutable]
    rw [isWritable_eq, testBit_and_complement_one _ _ _ (by decide)]
    simp [offX, isWritable_eq]
  · simp only [markAsExecutable]
    rw [isWritable_eq, testBit_or_one_shiftLeft]
    simp [offX, isWritable_eq]

theorem isWritable_markAsUserAccessible (n : Nat) (b : Bool) : isWritable (markAsUserAccessible n b) = isWritable n := by
  cases b
  · simp only [markAsUserAccessible]
    rw [isWritable_eq, testBit_and_complement_one _ _ _ (by decide)]
    simp [offU, isWritable_eq]
  · simp only [markAsUserAccessible]
    rw [isWritable_eq, testBit_or_one_shiftLeft]
    simp [offU, isWritable_eq]

theorem isWritable_markAsValid (n : Nat) (b : Bool) : isWritable (markAsValid n b) = isWritable n := by
  cases b
  · simp only [markAsValid]
    rw [isWritable_eq, testBit_and_complement_one _ _ _ (by decide)]
    simp [offV, isWritable_eq]
  · simp only [markAsValid]
    rw [isWritable_eq, testBit_or_one_shiftLeft]
    simp [offV, isWritable_eq]

theorem isExecutable_markAsUserAccessible (n : Nat) (b : Bool) : isExecutable (markAsUserAccessible n b) = isExecutable n := by
  cases b
  · simp only [markAsUserAccessible]
    rw [isExecutable_eq, testBit_and_complement_one _ _ _ (by decide)]
    simp [offU, isExecutable_eq]
  · simp only [markAsUserAccessible]
    rw [isExecutable_eq, testBit_or_one_shiftLeft]
    simp [offU, isExecutable_eq]

theorem isExecutable_markAsValid (n : Nat) (b : Bool) : isExecutable (markAsValid n b) = isExecutable n := by
  cases b
  · simp only [markAsValid]
    rw [isExecutable_eq, testBit_and_complement_one _ _ _ (by decide)]
    simp [offV, isExecutable_eq]
  · simp only [markAsValid]
    rw [isExecutable_eq, testBit_or_one_shiftLeft]
    simp [offV, isExecutable_eq]

theorem isUserAccessible_markAsValid (n : Nat) (b : Bool) : isUserAccessible (markAsValid n b) = isUserAccessible n := by
  cases b
  · simp only [markAsValid]
    rw [isUserAccessible_eq, testBit_and_complement_one _ _ _ (by decide)]
    simp [offV, isUserAccessible_eq]
  · simp only [markAsValid]
    rw [isUserAccessible_eq, testBit_or_one_shiftLeft]
    simp [offV, isUserAccessible_eq]

theorem getPPN_markAsValid (n : Nat) (b : Bool) :
    getPhysicalPageNumber (markAsValid n b) = getPhysicalPageNumber n := by
  cases b
  · simp only [markAsValid]
    rw [getPPN_and_complement_one _ _ (by decide)]
  · simp only [markAsValid]
    rw [getPPN_or_one _ _ (by decide)]

theorem getPPN_markAsReadable (n : Nat) (b : Bool) :
    getPhysicalPageNumber (markAsReadable n b) = getPhysicalPageNumber n := by
  cases b
  · simp only [markAsReadable]
    rw [getPPN_and_complement_one _ _ (by decide)]
  · simp only [markAsReadable]
    rw [getPPN_or_one _ _ (by decide)]

theorem getPPN_markAsWritable (n : Nat) (b : Bool) :
    getPhysicalPageNumber (markAsWritable n b) = getPhysicalPageNumber n := by
  cases b
  · simp only [markAsWritable]
    rw [getPPN_and_complement_one _ _ (by decide)]
  · simp only [markAsWritable]
    rw [getPPN_or_one _ _ (by decide)]

theorem getPPN_markAsExecutable (n : Nat) (b : Bool) :
    getPhysicalPageNumber (markAsExecutable n b) = getPhysicalPageNumber n := by
  cases b
  · simp only [markAsExecutable]
    rw [getPPN_and_complement_one _ _ (by decide)]
  · simp only [markAsExecutable]
    rw [getPPN_or_one _ _ (by decide)]

theorem getPPN_markAsUserAccessible (n : Nat) (b : Bool) :
    getPhysicalPageNumber (markAsUserAccessible n b) = getPhysicalPageNumber n := by
  cases b
  · simp only [markAsUserAccessible]
    rw [getPPN_and_complement_one _ _ (by decide)]
  · simp only [markAsUserAccessible]
    rw [getPPN_or_one _ _ (by decide)]

theorem isReadable_setPPNWord (n p : Nat) : isReadable (setPPNWord n p) = isReadable n := by
  simp only [isReadable_eq]
  rw [testBit_setPPNWord_low _ _ _ (by decide)]

theorem isWritable_setPPNWord (n p : Nat) : isWritable (setPPNWord n p) = isWritable n := by
  simp only [isWritable_eq]
  rw [testBit_setPPNWord_low _ _ _ (by decide)]

theorem isExecutable_setPPNWord (n p : Nat) : isExecutable (setPPNWord n p) = isExecutable n := by
  simp only [isExecutable_eq]
  rw [testBit_setPPNWord_low _ _ _ (by decide)]

theorem isUserAccessible_setPPNWord (n p : Nat) : isUserAccessible (setPPNWord n p) = isUserAccessible n := by
  simp only [isUserAccessible_eq]
  rw [testBit_setPPNWord_low _ _ _ (by decide)]

theorem isValid_setPPNWord (n p : Nat) : isValid (setPPNWord n p) = isValid n := by
  simp only [isValid_eq]
  rw [testBit_setPPNWord_low _ _ _ (by decide)]

end FieldOpLemmas

/-- Set-then-get round trip of every `PageTableEntry` field named in the
specification, at a fixed entry `pte`, flag value `b` and physical address `p`:
each `mark_as_*` setter (and each `clear_*_flag`, the only mutators of `A` and
`D`) is read back exactly by the matching `is_*` getter, and every other field
of the claim's set `{PPN, R, W, X, U, V, A, D}` is left unchanged; the `PPN`
field written by `set_physical_page_number` is read back exactly by
`get_physical_page_number`. -/
def PteSetGet (pte : Nat) (b : Bool) (p : Nat) : Prop :=
  (PageTableEntry.isValid (PageTableEntry.markAsValid pte b) = b ∧
    PageTableEntry.isReadable (PageTableEntry.markAsValid pte b) = PageTableEntry.isReadable pte ∧
    PageTableEntry.isWritable (PageTableEntry.markAsValid pte b) = PageTableEntry.isWritable pte ∧
    PageTableEntry.isExecutable (PageTableEntry.markAsValid pte b) =
      PageTableEntry.isExecutable pte ∧
    PageTableEntry.isUserAccessible (PageTableEntry.markAsValid pte b) =
      PageTableEntry.isUserAccessible pte ∧
    PageTableEntry.isAccessed (PageTableEntry.markAsValid pte b) = PageTableEntry.isAccessed pte ∧
    PageTableEntry.isDirty (PageTableEntry.markAsValid pte b) = PageTableEntry.isDirty pte ∧
    PageTableEntry.getPhysicalPageNumber (PageTableEntry.markAsValid pte b) =
      PageTableEntry.getPhysicalPageNumber pte) ∧
  (PageTableEntry.isReadable (PageTableEntry.markAsReadable pte b) = b ∧
    PageTableEntry.isValid (PageTableEntry.markAsReadable pte b) = PageTableEntry.isValid pte ∧
    PageTableEntry.isWritable (PageTableEntry.markAsReadable pte b) =
      PageTableEntry.isWritable pte ∧
    PageTableEntry.isExecutable (PageTableEntry.markAsReadable pte b) =
      PageTableEntry.isExecutable pte ∧
    PageTableEntry.isUserAccessible (PageTableEntry.markAsReadable pte b) =
      PageTableEntry.isUserAccessible pte ∧
    PageTableEntry.isAccessed (PageTableEntry.markAsReadable pte b) =
      PageTableEntry.isAccessed pte ∧
    PageTableEntry.isDirty (PageTableEntry.markAsReadable pte b) = PageTableEntry.isDirty pte ∧
    PageTableEntry.getPhysicalPageNumber (PageTableEntry.markAsReadable pte b) =
      PageTableEntry.getPhysicalPageNumber pte) ∧
  (PageTableEntry.isWritable (PageTableEntry.markAsWritable pte b) = b ∧
    PageTableEntry.isValid (PageTableEntry.markAsWritable pte b) = PageTableEntry.isValid pte ∧
    PageTableEntry.isReadable (PageTableEntry.markAsWritable pte b) =
      PageTableEntry.isReadable pte ∧
    PageTableEntry.isExecutable (PageTableEntry.markAsWritable pte b) =
      PageTableEntry.isExecutable pte ∧
    PageTableEntry.isUserAccessible (PageTableEntry.markAsWritable pte b) =
      PageTableEntry.isUserAccessible pte ∧
    PageTableEntry.isAccessed (PageTableEntry.markAsWritable pte b) =
      PageTableEntry.isAccessed pte ∧
    PageTableEntry.isDirty (PageTableEntry.markAsWritable pte b) = PageTableEntry.isDirty pte ∧
    PageTableEntry.getPhysicalPageNumber (PageTableEntry.markAsWritable pte b) =
      PageTableEntry.getPhysicalPageNumber pte) ∧
  (PageTableEntry.isExecutable (PageTableEntry.markAsExecutable pte b) = b ∧
    PageTableEntry.isValid (PageTableEntry.markAsExecutable pte b) = PageTableEntry.isValid pte ∧
    PageTableEntry.isReadable (PageTableEntry.markAsExecutable pte b) =
      PageTableEntry.isReadable pte ∧
    PageTableEntry.isWritable (PageTableEntry.markAsExecutable pte b) =
      PageTableEntry.isWritable pte ∧
    PageTableEntry.isUserAccessible (PageTableEntry.markAsExecutable pte b) =
      PageTableEntry.isUserAccessible pte ∧
    PageTableEntry.isAccessed (PageTableEntry.markAsExecutable pte b) =
      PageTableEntry.isAccessed pte ∧
    PageTableEntry.isDirty (PageTableEntry.markAsExecutable pte b) = PageTableEntry.isDirty pte ∧
    PageTableEntry.getPhysicalPageNumber (PageTableEntry.markAsExecutable pte b) =
      PageTableEntry.getPhysicalPageNumber pte) ∧
  (PageTableEntry.isUserAccessible (PageTableEntry.markAsUserAccessible pte b) = b ∧
    PageTableEntry.isValid (PageTableEntry.markAsUserAccessible pte b) =
      PageTableEntry.isValid pte ∧
    PageTableEntry.isReadable (PageTableEntry.markAsUserAccessible pte b) =
      PageTableEntry.isReadable pte ∧
    PageTableEntry.isWritable (PageTableEntry.markAsUserAccessible pte b) =
      PageTableEntry.isWritable pte ∧
    PageTableEntry.isExecutable (PageTableEntry.markAsUserAccessible pte b) =
      PageTableEntry.isExecutable pte ∧
    PageTableEntry.isAccessed (PageTableEntry.markAsUserAccessible pte b) =
      PageTableEntry.isAccessed pte ∧
    PageTableEntry.isDirty (PageTableEntry.markAsUserAccessible pte b) =
      PageTableEntry.isDirty pte ∧
    PageTableEntry.getPhysicalPageNumber (PageTableEntry.markAsUserAccessible pte b) =
      PageTableEntry.getPhysicalPageNumber pte) ∧
  (PageTableEntry.isAccessed (PageTableEntry.clearAccessFlag pte) = false ∧
    PageTableEntry.isValid (PageTableEntry.clearAccessFlag pte) = PageTableEntry.isValid pte ∧
    PageTableEntry.isReadable (PageTableEntry.clearAccessFlag pte) =
      PageTableEntry.isReadable pte ∧
    PageTableEntry.isWritable (PageTableEntry.clearAccessFlag pte) =
      PageTableEntry.isWritable pte ∧
    PageTableEntry.isExecutable (PageTableEntry.clearAccessFlag pte) =
      PageTableEntry.isExecutable pte ∧
    PageTableEntry.isUserAccessible (PageTableEntry.clearAccessFlag pte) =
      PageTableEntry.isUserAccessible pte ∧
    PageTableEntry.isDirty (PageTableEntry.clearAccessFlag pte) = PageTableEntry.isDirty pte ∧
    PageTableEntry.getPhysicalPageNumber (PageTableEntry.clearAccessFlag pte) =
      PageTableEntry.getPhysicalPageNumber pte) ∧
  (PageTableEntry.isDirty (PageTableEntry.clearDirtyFlag pte) = false ∧
    PageTableEntry.isValid (PageTableEntry.clearDirtyFlag pte) = PageTableEntry.isValid pte ∧
    PageTableEntry.isReadable (PageTableEntry.clearDirtyFlag pte) =
      PageTableEntry.isReadable pte ∧
    PageTableEntry.isWritable (PageTableEntry.clearDirtyFlag pte) =
      PageTableEntry.isWritable pte ∧
    PageTableEntry.isExecutable (PageTableEntry.clearDirtyFlag pte) =
      PageTableEntry.isExecutable pte ∧
    PageTableEntry.isUserAccessible (PageTableEntry.clearDirtyFlag pte) =
      PageTableEntry.isUserAccessible pte ∧
    PageTableEntry.isAccessed (PageTableEntry.clearDirtyFlag pte) =
      PageTableEntry.isAccessed pte ∧
    PageTableEntry.getPhysicalPageNumber (PageTableEntry.clearDirtyFlag pte) =
      PageTableEntry.getPhysicalPageNumber pte) ∧
  (PageTableEntry.setPhysicalPageNumber pte p = .ok (PageTableEntry.setPPNWord pte p) ∧
    PageTableEntry.getPhysicalPageNumber (PageTableEntry.setPPNWord pte p) = p ∧
    PageTableEntry.isValid (PageTableEntry.setPPNWord pte p) = PageTableEntry.isValid pte ∧
    PageTableEntry.isReadable (PageTableEntry.setPPNWord pte p) = PageTableEntry.isReadable pte ∧
    PageTableEntry.isWritable (PageTableEntry.setPPNWord pte p) = PageTableEntry.isWritable pte ∧
    PageTableEntry.isExecutable (PageTableEntry.setPPNWord pte p) =
      PageTableEntry.isExecutable pte ∧
    PageTableEntry.isUserAccessible (PageTableEntry.setPPNWord pte p) =
      PageTableEntry.isUserAccessible pte ∧
    PageTableEntry.isAccessed (PageTableEntry.setPPNWord pte p) = PageTableEntry.isAccessed pte ∧
    PageTableEntry.isDirty (PageTableEntry.setPPNWord pte p) = PageTableEntry.isDirty pte)

/-- C8: for each of the page-table-entry fields PPN, R, W, X, U, V, A and D,
setting the field on an arbitrary 64-bit `PageTableEntry` and reading it back
returns the value that was set (for PPN, for every physical address below
`2^44`), and no other field of the entry is changed by the set. The only
mutators of `A` and `D` in `src/mm/pte.rs` are `clear_access_flag` and
`clear_dirty_flag`, so for those fields the settable value is `false`. -/
theorem c8_pte_field_set_get (pte : Nat) (b : Bool) (p : Nat)
    (hpte : pte < 2 ^ 64) (hp : p < PageTableEntry.PPN_SIZE) :
    PteSetGet pte b p := by
  have hppn := getPPN_setPPNWord pte p hp
  have hset : PageTableEntry.setPhysicalPageNumber pte p =
      .ok (PageTableEntry.setPPNWord pte p) := by
    rw [PageTableEntry.setPhysicalPageNumber, if_pos hp]
  unfold PteSetGet
  cases b <;>
  · repeat' apply And.intro
    all_goals
      first
      | exact hset
      | exact hppn
      | (simp only [PageTableEntry.markAsValid, PageTableEntry.markAsReadable,
          PageTableEntry.markAsWritable, PageTableEntry.markAsExecutable,
          PageTableEntry.markAsUserAccessible, PageTableEntry.clearAccessFlag,
          PageTableEntry.clearDirtyFlag, isValid_eq, isReadable_eq, isWritable_eq,
          isExecutable_eq, isUserAccessible_eq, isAccessed_eq, isDirty_eq]
         first
         | (rw [testBit_or_one_shiftLeft]
            simp [PageTableEntry.offV, PageTableEntry.offR, PageTableEntry.offW,
              PageTableEntry.offX, PageTableEntry.offU, PageTableEntry.offA,
              PageTableEntry.offD])
         | (rw [testBit_and_complement_one _ _ _ (by decide)]
            simp [PageTableEntry.offV, PageTableEntry.offR, PageTableEntry.offW,
              PageTableEntry.offX, PageTableEntry.offU, PageTableEntry.offA,
              PageTableEntry.offD])
         | (rw [testBit_setPPNWord_low _ _ _ (by decide)])
         | (rw [getPPN_or_one _ _ (by decide)])
         | (rw [getPPN_and_complement_one _ _ (by decide)]))

/-- Witness for C8 at a concrete entry, flag and physical address. -/
theorem c8_pte_field_set_get_witness :
    ((0xdeadbeefcafe : Nat) < 2 ^ 64 ∧ (0x80200000 : Nat) < PageTableEntry.PPN_SIZE) ∧
      PteSetGet 0xdeadbeefcafe true 0x80200000 :=
  ⟨⟨by decide, by decide⟩,
    c8_pte_field_set_get 0xdeadbeefcafe true 0x80200000 (by decide) (by decide)⟩

namespace Ticketlock

/-- Modulus of the wrapping `usize` arithmetic on the two lock counters. -/
def USIZE_MOD : Nat := 2 ^ 64

/-- Counter state of a `Ticketlock` (`src/sync/ticketlock.rs`): the `ticket`
value handed to arriving lockers by `fetch_add` and the `counter` ("now
serving") value advanced on unlock. -/
structure State where
  ticket : Nat
  counter : Nat
deriving DecidableEq, Repr

/-- `Ticketlock::new`: both counters start at zero. -/
def new : State := { ticket := 0, counter := 0 }

/-- Counter effect of `Ticketlock::lock`: `self.ticket.fetch_add(1)`. -/
def lockStep (s : State) : State := { s with ticket := (s.ticket + 1) % USIZE_MOD }

/-- Counter effect of `TicketlockGuard::unlock`: `self.counter.fetch_add(1)`. -/
def unlockStep (s : State) : State := { s with counter := (s.counter + 1) % USIZE_MOD }

/-- `Ticketlock::is_locked`: `self.counter.load() == self.ticket.load()`. -/
def isLocked (s : State) : Bool := s.counter == s.ticket

/-- Events of a lock history on one `Ticketlock`. -/
inductive Op where
  | acquire
  | release
deriving DecidableEq, Repr

/-- Number of completed `lock` calls in a history. -/
def countAcq (t : List Op) : Nat := t.count .acquire

/-- Number of `unlock` calls in a history. -/
def countRel (t : List Op) : Nat := t.count .release

/-- Replay the counter effects of a lock history. -/
def run (s : State) : List Op → State
  | [] => s
  | .acquire :: t => run (lockStep s) t
  | .release :: t => run (unlockStep s) t

/-- A history is well bracketed when no prefix releases the lock more often
than it acquired it: every unlock is performed by a holder. -/
def WellBracketed (t : List Op) : Prop :=
  ∀ n, n ≤ t.length → countRel (t.take n) ≤ countAcq (t.take n)

theorem USIZE_MOD_pos : 0 < USIZE_MOD := by
  rw [USIZE_MOD]
  norm_num

theorem countAcq_cons_acq (t : List Op) : countAcq (.acquire :: t) = countAcq t + 1 := by
  simp [countAcq]

theorem countAcq_cons_rel (t : List Op) : countAcq (.release :: t) = countAcq t := by
  simp [countAcq]

theorem countRel_cons_acq (t : List Op) : countRel (.acquire :: t) = countRel t := by
  simp [countRel]

theorem countRel_cons_rel (t : List Op) : countRel (.release :: t) = countRel t + 1 := by
  simp [countRel]

theorem run_ticket (t : List Op) : ∀ s : State, s.ticket < USIZE_MOD →
    (run s t).ticket = (s.ticket + countAcq t) % USIZE_MOD := by
  induction t with
  | nil =>
    intro s hs
    simp [run, countAcq, Nat.mod_eq_of_lt hs]
  | cons op t ih =>
    intro s hs
    cases op with
    | acquire =>
      have hlt : (lockStep s).ticket < USIZE_MOD := Nat.mod_lt _ USIZE_MOD_pos
      rw [run, ih (lockStep s) hlt, countAcq_cons_acq]
      show ((s.ticket + 1) % USIZE_MOD + countAcq t) % USIZE_MOD = _
      rw [Nat.mod_add_mod]
      congr 1
      omega
    | release =>
      rw [run, ih (unlockStep s) hs, countAcq_cons_rel]
      rfl

theorem run_counter (t : List Op) : ∀ s : State, s.counter < USIZE_MOD →
    (run s t).counter = (s.counter + countRel t) % USIZE_MOD := by
  induction t with
  | nil =>
    intro s hs
    simp [run, countRel, Nat.mod_eq_of_lt hs]
  | cons op t ih =>
    intro s hs
    cases op with
    | acquire =>
      rw [run, ih (lockStep s) hs, countRel_cons_acq]
      rfl
    | release =>
      have hlt : (unlockStep s).counter < USIZE_MOD := Nat.mod_lt _ USIZE_MOD_pos
      rw [run, ih (unlockStep s) hlt, countRel_cons_rel]
      show ((s.counter + 1) % USIZE_MOD + countRel t) % USIZE_MOD = _
      rw [Nat.mod_add_mod]
      congr 1
      omega

end Ticketlock

/-- C10: on any well-bracketed lock history starting from a fresh
`Ticketlock` whose acquisitions do not wrap the 64-bit ticket counter,
`is_locked` computes `counter == ticket`, which is `true` exactly when every
acquirer has released again, i.e. when the lock is free, and `false` while
the lock is held. -/
theorem c10_is_locked_iff_free (t : List Ticketlock.Op)
    (hwb : Ticketlock.WellBracketed t)
    (hbound : Ticketlock.countAcq t < Ticketlock.USIZE_MOD) :
    Ticketlock.isLocked (Ticketlock.run Ticketlock.new t) =
      decide (Ticketlock.countRel t = Ticketlock.countAcq t) := by
  have hrel : Ticketlock.countRel t ≤ Ticketlock.countAcq t := by
    have h := hwb t.length (le_refl _)
    simpa using h
  have ht : (Ticketlock.run Ticketlock.new t).ticket =
      Ticketlock.countAcq t % Ticketlock.USIZE_MOD := by
    have := Ticketlock.run_ticket t Ticketlock.new Ticketlock.USIZE_MOD_pos
    simpa [Ticketlock.new] using this
  have hc : (Ticketlock.run Ticketlock.new t).counter =
      Ticketlock.countRel t % Ticketlock.USIZE_MOD := by
    have := Ticketlock.run_counter t Ticketlock.new Ticketlock.USIZE_MOD_pos
    simpa [Ticketlock.new] using this
  rw [Ticketlock.isLocked, ht, hc, Nat.mod_eq_of_lt hbound,
    Nat.mod_eq_of_lt (lt_of_le_of_lt hrel hbound)]
  by_cases h : Ticketlock.countRel t = Ticketlock.countAcq t <;> simp [h]

/-- Witness for C10 on the one-acquire history: the lock is held, so
`is_locked` returns `false`. -/
theorem c10_is_locked_iff_free_witness :
    (Ticketlock.WellBracketed [Ticketlock.Op.acquire] ∧
      Ticketlock.countAcq [Ticketlock.Op.acquire] < Ticketlock.USIZE_MOD) ∧
      Ticketlock.isLocked (Ticketlock.run Ticketlock.new [Ticketlock.Op.acquire]) =
        decide (Ticketlock.countRel [Ticketlock.Op.acquire] =
          Ticketlock.countAcq [Ticketlock.Op.acquire]) :=
  ⟨⟨by intro n hn; cases n <;> simp [Ticketlock.countRel, Ticketlock.countAcq], by decide⟩,
    c10_is_locked_iff_free [Ticketlock.Op.acquire]
      (by intro n hn; cases n <;> simp [Ticketlock.countRel, Ticketlock.countAcq])
      (by decide)⟩

/-- `MAX_CPU_NUM` from the generated `src/config.rs`. -/
def MAX_CPU_NUM : Nat := 8

namespace Epilogue

/-- Per-hart `EPILOGUE_STATE` flags of `src/sync/epilogue.rs`, one boolean per
logical CPU, all `false` at boot. -/
def State := Fin MAX_CPU_NUM → Bool

/-- Initial `EPILOGUE_STATE`: `[false; MAX_CPU_NUM]`. -/
def initialState : State := fun _ => false

/-- Write one hart's flag. -/
def setFlag (s : State) (hart : Fin MAX_CPU_NUM) (b : Bool) : State :=
  fun h => if h = hart then b else s h

/-- `try_enter`: compare-exchange the current hart's flag from `false` to
`true`; success mints a `LevelEpilogue` token (zero-sized, so the model keeps
only the success outcome together with the updated flags). The interrupt
save/restore around the CAS does not affect the flag. -/
def tryEnter (s : State) (hart : Fin MAX_CPU_NUM) : Option State :=
  match s hart with
  | false => some (setFlag s hart true)
  | true => none

/-- Flag effect of `leave`: after draining the pending queues (which never
touch `EPILOGUE_STATE`), compare-exchange the current hart's flag from `true`
back to `false`; the `.unwrap()` panics if the flag was not set. -/
def leave (s : State) (hart : Fin MAX_CPU_NUM) : Except Fault State :=
  match s hart with
  | true => .ok (setFlag s hart false)
  | false => .error .panicked

/-- Run `n` consecutive `try_enter` attempts on one hart, counting successes. -/
def tryEnterN (s : State) (hart : Fin MAX_CPU_NUM) : Nat → Nat × State
  | 0 => (0, s)
  | n + 1 =>
    match tryEnter s hart with
    | some s' =>
      let r := tryEnterN s' hart n
      (r.1 + 1, r.2)
    | none => tryEnterN s hart n

theorem setFlag_same (s : State) (hart : Fin MAX_CPU_NUM) (b : Bool) :
    setFlag s hart b hart = b := by
  simp [setFlag]

theorem tryEnterN_busy (hart : Fin MAX_CPU_NUM) :
    ∀ (n : Nat) (s : State), s hart = true → tryEnterN s hart n = (0, s) := by
  intro n
  induction n with
  | zero => intro s hs; rfl
  | succ n ih =>
    intro s hs
    rw [tryEnterN, tryEnter, hs]
    exact ih s hs

end Epilogue

/-- C9: on a single hart, `try_enter` succeeds exactly once: from a clear
flag it returns `Some` and sets the flag, after which any number of further
`try_enter` calls on that hart return `None` (zero successes), until `leave`
clears the flag again, after which `try_enter` can succeed again. -/
theorem c9_epilogue_try_enter_once (s : Epilogue.State) (hart : Fin MAX_CPU_NUM)
    (h : s hart = false) (n : Nat) :
    Epilogue.tryEnter s hart = some (Epilogue.setFlag s hart true) ∧
    Epilogue.tryEnter (Epilogue.setFlag s hart true) hart = none ∧
    (Epilogue.tryEnterN (Epilogue.setFlag s hart true) hart n).1 = 0 ∧
    Epilogue.leave (Epilogue.setFlag s hart true) hart =
      .ok (Epilogue.setFlag (Epilogue.setFlag s hart true) hart false) ∧
    Epilogue.tryEnter (Epilogue.setFlag (Epilogue.setFlag s hart true) hart false) hart =
      some (Epilogue.setFlag (Epilogue.setFlag (Epilogue.setFlag s hart true) hart false)
        hart true) := by
  refine ⟨?_, ?_, ?_, ?_, ?_⟩
  · rw [Epilogue.tryEnter, h]
  · rw [Epilogue.tryEnter, Epilogue.setFlag_same]
  · rw [Epilogue.tryEnterN_busy hart n _ (Epilogue.setFlag_same s hart true)]
  · rw [Epilogue.leave, Epilogue.setFlag_same]
  · rw [Epilogue.tryEnter, Epilogue.setFlag_same]

/-- Witness for C9 on hart 0 starting from the boot state of the flags. -/
theorem c9_epilogue_try_enter_once_witness :
    Epilogue.initialState ⟨0, by decide⟩ = false ∧
      (Epilogue.tryEnter Epilogue.initialState ⟨0, by decide⟩ =
          some (Epilogue.setFlag Epilogue.initialState ⟨0, by decide⟩ true) ∧
        Epilogue.tryEnter (Epilogue.setFlag Epilogue.initialState ⟨0, by decide⟩ true)
            ⟨0, by decide⟩ = none ∧
        (Epilogue.tryEnterN (Epilogue.setFlag Epilogue.initialState ⟨0, by decide⟩ true)
            ⟨0, by decide⟩ 3).1 = 0 ∧
        Epilogue.leave (Epilogue.setFlag Epilogue.initialState ⟨0, by decide⟩ true)
            ⟨0, by decide⟩ =
          .ok (Epilogue.setFlag (Epilogue.setFlag Epilogue.initialState ⟨0, by decide⟩ true)
            ⟨0, by decide⟩ false) ∧
        Epilogue.tryEnter (Epilogue.setFlag
            (Epilogue.setFlag Epilogue.initialState ⟨0, by decide⟩ true) ⟨0, by decide⟩ false)
            ⟨0, by decide⟩ =
          some (Epilogue.setFlag (Epilogue.setFlag
            (Epilogue.setFlag Epilogue.initialState ⟨0, by decide⟩ true) ⟨0, by decide⟩ false)
            ⟨0, by decide⟩ true)) :=
  ⟨rfl, c9_epilogue_try_enter_once Epilogue.initialState ⟨0, by decide⟩ rfl 3⟩

namespace CpuMap

/-- `CPU_MAP_IDX` (`src/kernel/cpu_map.rs:29`) is declared as a `const` item,
not a `static`: a Rust `const` is inlined at every use site, so each access
materialises a fresh temporary `UnsafeCell` holding this initial value, and
any write through it lands in that temporary and is discarded with it. -/
def CPU_MAP_IDX : Nat := 0

/-- `CPU_MAP` (`src/kernel/cpu_map.rs:30-31`) is likewise a `const` item:
every access sees a fresh zero-initialised array
`[HartID::new(0); config::MAX_CPU_NUM]`. -/
def CPU_MAP : List Nat := List.replicate MAX_CPU_NUM 0

/-- `register_hart`: reads the cursor from a fresh copy of `CPU_MAP_IDX`
(always 0), checks it against `MAX_CPU_NUM`, stores the hart ID into a fresh
copy of `CPU_MAP` (the write dies with the temporary), hands out the cursor
as the logical ID, and increments the temporary cursor (also discarded). -/
def registerHart (hartId : Nat) : Except Fault Nat :=
  if CPU_MAP_IDX ≥ MAX_CPU_NUM then .error .panicked
  else
    let _discardedMap := CPU_MAP.set CPU_MAP_IDX hartId
    let _discardedIdx := CPU_MAP_IDX + 1
    .ok CPU_MAP_IDX

/-- `lookup_logical_id`: scan a fresh copy of the `const` array `CPU_MAP`
for the first entry equal to the hart ID; panic when none matches. -/
def lookupLogicalId (hartId : Nat) : Except Fault Nat :=
  match CPU_MAP.findIdx? (fun h => h == hartId) with
  | some i => .ok i
  | none => .error .panicked

/-- `lookup_hart_id`: read the cursor from a fresh copy of `CPU_MAP_IDX`
(always 0); panic when the logical ID is at or past it, otherwise read the
slot from a fresh copy of `CPU_MAP`. -/
def lookupHartId (logicalId : Nat) : Except Fault Nat :=
  if logicalId ≥ CPU_MAP_IDX then .error .panicked
  else .ok (CPU_MAP.getD logicalId 0)

end CpuMap

/-- C2: the claim says the two CPU-map lookups are mutually inverse on
registered entries, but `CPU_MAP` and `CPU_MAP_IDX` in
`src/kernel/cpu_map.rs` are `const` items instead of `static`s, so every
access operates on a fresh temporary. Consequently `register_hart` discards
its array write and its cursor increment and assigns logical ID 0 to every
hart; `lookup_hart_id` compares against a fresh cursor of 0, so
`logical_id >= cpu_map_idx` holds for every input and it unconditionally
panics - `lookup_logical_id(lookup_hart_id(x))` never returns for any
assigned `x`; and `lookup_logical_id` scans a fresh all-zero array, so no
registration is ever visible to it either. -/
theorem c2_cpu_map_const_items_discard_registrations :
    (∀ hartId : Nat, CpuMap.registerHart hartId = .ok 0) ∧
    (∀ logicalId : Nat, CpuMap.lookupHartId logicalId = .error .panicked) ∧
    (∀ hartId : Nat, CpuMap.lookupLogicalId hartId =
      if hartId = 0 then .ok 0 else .error .panicked) := by
  refine ⟨fun hartId => rfl, fun logicalId => ?_, fun hartId => ?_⟩
  · rw [CpuMap.lookupHartId, CpuMap.CPU_MAP_IDX, if_pos (Nat.zero_le logicalId)]
  · by_cases h0 : hartId = 0
    · subst h0
      rfl
    · rw [if_neg h0]
      have hmap : CpuMap.CPU_MAP = [0, 0, 0, 0, 0, 0, 0, 0] := rfl
      have hb : ((0 : Nat) == hartId) = false := by
        simp [Ne.symm h0]
      have hfind : List.findIdx? (fun h => h == hartId)
          [0, 0, 0, 0, 0, 0, 0, 0] = none := by
        simp [List.findIdx?_cons, List.findIdx?_nil, hb]
      rw [CpuMap.lookupLogicalId, hmap, hfind]


namespace MM

/-- `PAGE_SIZE` from the generated `src/config.rs`. -/
def PAGE_SIZE : Nat := 4096

/-- `MAX_SIZE` of `src/mm/page_allocator.rs`: the allocator manages at most
16 MiB of the page pool. -/
def MAX_SIZE : Nat := 0x1000000

/-- Linker-provided bounds of the page pool: `__phys_pages_start`,
`__virt_pages_start` and the common segment size (`*_end = *_start + size`). -/
structure PoolConfig where
  physStart : Nat
  virtStart : Nat
  size : Nat
deriving DecidableEq, Repr

/-- Memory-management machine state: the allocator bitmap (`[u64; 64]`) and
the page-pool memory as a map from 64-bit-word index (physical byte address
divided by 8) to word value. All page tables live in pool frames, so one map
covers both the allocator's zeroing and the page-table reads and writes. -/
structure MState where
  bitmap : List Nat
  mem : Nat → Nat

/-- Word index of entry `i` of the page table whose frame starts at physical
address `f` (`v_pt.add(i)` dereferenced). -/
def wordIdx (f i : Nat) : Nat := (f + 8 * i) / 8

/-- Read the 64-bit word holding entry `i` of the table at frame `f`. -/
def readW (st : MState) (f i : Nat) : Nat := st.mem (wordIdx f i)

/-- Write the 64-bit word holding entry `i` of the table at frame `f`. -/
def writeW (st : MState) (f i v : Nat) : MState :=
  { st with mem := fun k => if k = wordIdx f i then v else st.mem k }

/-- Zero a whole 4096-byte frame starting at physical address `f`, as
`write_bytes(0, page_size())` does. -/
def zeroFrame (st : MState) (f : Nat) : MState :=
  { st with mem := fun k => if f / 8 ≤ k ∧ k < f / 8 + 512 then 0 else st.mem k }

/-- Guard of the page-pool translation assertions: page-aligned and inside
the pool's physical bounds. -/
def InPhysPool (cfg : PoolConfig) (p : Nat) : Prop :=
  p % PAGE_SIZE = 0 ∧ cfg.physStart ≤ p ∧ p < cfg.physStart + cfg.size

instance (cfg : PoolConfig) (p : Nat) : Decidable (InPhysPool cfg p) := by
  unfold InPhysPool
  infer_instance

/-- `PageFrameAllocator::virt_to_phys`: offset translation with the three
sanity assertions (page alignment and virtual pool bounds). -/
def virt_to_phys (cfg : PoolConfig) (v : Nat) : Except Fault Nat :=
  if v % PAGE_SIZE = 0 ∧ cfg.virtStart ≤ v ∧ v < cfg.virtStart + cfg.size then
    .ok (cfg.physStart + (v - cfg.virtStart))
  else .error .panicked

/-- `PageFrameAllocator::phys_to_virt`: offset translation with the three
sanity assertions (page alignment and physical pool bounds). -/
def phys_to_virt (cfg : PoolConfig) (p : Nat) : Except Fault Nat :=
  if InPhysPool cfg p then .ok (cfg.virtStart + (p - cfg.physStart))
  else .error .panicked

/-- Scan of one bitmap word in the order of `__allocate`: the first offset
`0 ≤ o < 64` whose bit is set. -/
def scanWord (w : Nat) : Option Nat :=
  (List.range 64).find? (fun o => w &&& (1 <<< o) != 0)

/-- Scan of the whole bitmap in the order of `__allocate`: word-major, then
offset; returns the word index, the offset and the bitmap with that bit
cleared. -/
def findFree : List Nat → Option (Nat × Nat × List Nat)
  | [] => none
  | w :: rest =>
    match scanWord w with
    | some o => some (0, o, (w &&& complement64 (1 <<< o)) :: rest)
    | none =>
      match findFree rest with
      | some (idx, o, rest1) => some (idx + 1, o, w :: rest1)
      | none => none

/-- `PageFrameAllocator::__allocate`: find the first set bit, clear it,
translate the frame's virtual address (with the source's sanity assertions),
zero the frame, and return its physical address; `OutOfMemory` if no bit is
set. -/
def allocateRaw (cfg : PoolConfig) (st : MState) : Except Fault (Nat × MState) :=
  match findFree st.bitmap with
  | none => .error (.memErr .OutOfMemory)
  | some (idx, off, bm) =>
    match virt_to_phys cfg (cfg.virtStart + (64 * idx + off) * PAGE_SIZE) with
    | .error e => .error e
    | .ok pPage =>
      if (cfg.virtStart + (64 * idx + off) * PAGE_SIZE) % PAGE_SIZE = 0 ∧
          cfg.virtStart ≤ cfg.virtStart + (64 * idx + off) * PAGE_SIZE ∧
          cfg.virtStart + (64 * idx + off) * PAGE_SIZE < cfg.virtStart + cfg.size then
        .ok (pPage, zeroFrame { st with bitmap := bm } pPage)
      else .error .panicked

/-- `PageFrameAllocator::allocate`: `__allocate` under the `Paging`-level
ticket lock (the lock and its tokens carry no data). -/
def allocate (cfg : PoolConfig) (st : MState) : Except Fault (Nat × MState) :=
  allocateRaw cfg st

/-- `PageFrameAllocator::early_allocate`: `__allocate` under the
initialization-phase lock; identical effect. -/
def early_allocate (cfg : PoolConfig) (st : MState) : Except Fault (Nat × MState) :=
  allocateRaw cfg st

/-- Physical frame address the next successful `allocate` would return. -/
def firstFreeAddr (cfg : PoolConfig) (st : MState) : Option Nat :=
  (findFree st.bitmap).map (fun r => cfg.physStart + (64 * r.1 + r.2.1) * PAGE_SIZE)

/-- Bitmap produced by the loop in `PageFrameAllocator::initialize` for `n`
frames: for each `i < n` the source computes `idx = i / u64::BITS` and
`offset = i / u64::BITS` (both divisions) and sets `state[idx] |= 1 << offset`. -/
def initBitmapLoop : Nat → List Nat
  | 0 => List.replicate 64 0
  | n + 1 =>
    let st := initBitmapLoop n
    st.set (n / 64) ((st.getD (n / 64) 0) ||| (1 <<< (n / 64)))

/-- `PageFrameAllocator::initialize`: assert the pool alignment, then install
the bitmap built by the loop over `min(MAX_SIZE, pool size) / PAGE_SIZE`
frames. -/
def initAllocator (cfg : PoolConfig) (st : MState) : Except Fault MState :=
  if cfg.physStart % PAGE_SIZE = 0 ∧ Nat.min MAX_SIZE cfg.size % PAGE_SIZE = 0 then
    .ok { st with bitmap := initBitmapLoop (Nat.min MAX_SIZE cfg.size / PAGE_SIZE) }
  else .error .panicked

/-- Number of set (free) bits of one bitmap word, as the allocator scans it. -/
def popcount64 (w : Nat) : Nat :=
  ((List.range 64).filter (fun o => w.testBit o)).length

/-- Total number of frames marked free in the bitmap. -/
def countFree (bm : List Nat) : Nat := (bm.map popcount64).sum

/-- `Protection` from `src/mm/mapping.rs`. -/
inductive Protection where
  | R
  | RW
  | X
  | RX
  | RWX
deriving DecidableEq, Repr

/-- `Protection::is_readable`. -/
def Protection.isReadable : Protection → Bool
  | .R => true
  | .RW => true
  | .X => false
  | .RX => true
  | .RWX => true

/-- `Protection::is_writable`. -/
def Protection.isWritable : Protection → Bool
  | .R => false
  | .RW => true
  | .X => false
  | .RX => false
  | .RWX => true

/-- `Protection::is_executable`. -/
def Protection.isExecutable : Protection → Bool
  | .R => false
  | .RW => false
  | .X => true
  | .RX => true
  | .RWX => true

/-- `Mode` from `src/mm/mapping.rs`. -/
inductive Mode where
  | Kernel
  | User
deriving DecidableEq, Repr

/-- `VirtualMemorySystem::offset`: VPN extraction for levels 0, 1, 2; panic
on any other level. -/
def offsetVPN (virt : Nat) : Nat → Except Fault Nat
  | 0 => .ok ((virt >>> 30) &&& 0x1ff)
  | 1 => .ok ((virt >>> 21) &&& 0x1ff)
  | 2 => .ok ((virt >>> 12) &&& 0x1ff)
  | _ => .error .panicked

/-- `VirtualMemorySystem` of `src/mm/mapping.rs`: the root (level-0) table
frame, the four user level-1 table frames and the four shared kernel level-1
table frames. These fields are fixed after construction; `create`, `lookup`
and `remove` only mutate table frames inside the pool memory. -/
structure VMS where
  root : Nat
  userPts1 : List Nat
  kernelPts1 : List Nat
deriving DecidableEq, Repr

/-- Half selection of `create`/`early_create` (the `match vpn_0` block): user
half for `VPN[0]` in `{0,1,2,3}` (mode must be `User`), kernel half for
`{508,...,511}` (mode must be `Kernel`), `InvalidAddress` otherwise. -/
def selectPt1 (vms : VMS) (vpn0 : Nat) (mode : Mode) : Except Fault Nat :=
  if vpn0 = 0 ∨ vpn0 = 1 ∨ vpn0 = 2 ∨ vpn0 = 3 then
    if mode ≠ Mode.User then .error (.memErr .InvalidAddress)
    else .ok (vms.userPts1.getD vpn0 0)
  else if vpn0 = 508 ∨ vpn0 = 509 ∨ vpn0 = 510 ∨ vpn0 = 511 then
    if mode ≠ Mode.Kernel then .error (.memErr .InvalidAddress)
    else .ok (vms.kernelPts1.getD (vpn0 - 508) 0)
  else .error (.memErr .InvalidAddress)

/-- Half selection of `lookup` (same `match vpn_0` block, without the mode
checks). -/
def selectPt1Lookup (vms : VMS) (vpn0 : Nat) : Except Fault Nat :=
  if vpn0 = 0 ∨ vpn0 = 1 ∨ vpn0 = 2 ∨ vpn0 = 3 then
    .ok (vms.userPts1.getD vpn0 0)
  else if vpn0 = 508 ∨ vpn0 = 509 ∨ vpn0 = 510 ∨ vpn0 = 511 then
    .ok (vms.kernelPts1.getD (vpn0 - 508) 0)
  else .error (.memErr .InvalidAddress)

/-- The `match pte_1.is_valid()` block of `create`: reuse a valid inner
level-2 entry (asserting it is an inner, non-user entry), or allocate a fresh
zeroed level-2 table frame and link it into `pte_1`. -/
def resolveL3Create (cfg : PoolConfig) (st : MState) (pt1 vpn1 : Nat) :
    Except Fault (Nat × MState) :=
  let pte1 := readW st pt1 vpn1
  if PageTableEntry.isValid pte1 then
    if PageTableEntry.isInnerPageTable pte1 && !PageTableEntry.isUserAccessible pte1 then
      .ok (PageTableEntry.getPhysicalPageNumber pte1, st)
    else .error .panicked
  else
    match allocate cfg st with
    | .error e => .error e
    | .ok r =>
      match PageTableEntry.setPhysicalPageNumber (readW r.2 pt1 vpn1) r.1 with
      | .error e => .error e
      | .ok w1 => .ok (r.1, writeW r.2 pt1 vpn1 (PageTableEntry.markAsValid w1 true))

/-- The `match pte_1.is_valid()` block of `lookup`: follow a valid inner
entry (with the same assertions) or fail with `NoSuchAddress`. -/
def resolveL3Lookup (st : MState) (pt1 vpn1 : Nat) : Except Fault Nat :=
  let pte1 := readW st pt1 vpn1
  if PageTableEntry.isValid pte1 then
    if PageTableEntry.isInnerPageTable pte1 && !PageTableEntry.isUserAccessible pte1 then
      .ok (PageTableEntry.getPhysicalPageNumber pte1)
    else .error .panicked
  else .error (.memErr .NoSuchAddress)

/-- The leaf update of `create`: set the physical page, then R/W/X/U from
the protection and mode, then V, by successive read-modify-writes of the same
entry (modelled as the composed word). -/
def leafWord (pte2 physAddr : Nat) (prot : Protection) (mode : Mode) : Except Fault Nat :=
  match PageTableEntry.setPhysicalPageNumber pte2 physAddr with
  | .error e => .error e
  | .ok w =>
    .ok (PageTableEntry.markAsValid
      (PageTableEntry.markAsUserAccessible
        (PageTableEntry.markAsExecutable
          (PageTableEntry.markAsWritable
            (PageTableEntry.markAsReadable w prot.isReadable)
            prot.isWritable)
          prot.isExecutable)
        (mode == Mode.User))
      true)

/-- Protection decode of `lookup` from the leaf's R/W/X bits; the remaining
combinations panic. -/
def protOf (pte2 : Nat) : Except Fault Protection :=
  match PageTableEntry.isReadable pte2, PageTableEntry.isWritable pte2,
      PageTableEntry.isExecutable pte2 with
  | true, true, true => .ok .RWX
  | true, true, false => .ok .RW
  | true, false, true => .ok .RX
  | true, false, false => .ok .R
  | false, false, true => .ok .X
  | _, _, _ => .error .panicked

/-- `VirtualMemorySystem::create`. -/
def create (cfg : PoolConfig) (vms : VMS) (st : MState) (physAddr virt : Nat)
    (prot : Protection) (mode : Mode) : Except Fault MState :=
  match phys_to_virt cfg vms.root with
  | .error e => .error e
  | .ok _ =>
    match offsetVPN virt 0 with
    | .error e => .error e
    | .ok vpn0 =>
      if PageTableEntry.isValid (readW st vms.root vpn0) = false then
        .error (.memErr .InvalidAddress)
      else
        match selectPt1 vms vpn0 mode with
        | .error e => .error e
        | .ok pt1 =>
          match phys_to_virt cfg pt1 with
          | .error e => .error e
          | .ok _ =>
            match offsetVPN virt 1 with
            | .error e => .error e
            | .ok vpn1 =>
              match resolveL3Create cfg st pt1 vpn1 with
              | .error e => .error e
              | .ok r =>
                match phys_to_virt cfg r.1 with
                | .error e => .error e
                | .ok _ =>
                  match offsetVPN virt 2 with
                  | .error e => .error e
                  | .ok vpn2 =>
                    if PageTableEntry.isValid (readW r.2 r.1 vpn2) then
                      .error (.memErr .AddressAlreadyInUse)
                    else
                      match leafWord (readW r.2 r.1 vpn2) physAddr prot mode with
                      | .error e => .error e
                      | .ok w => .ok (writeW r.2 r.1 vpn2 w)

/-- `VirtualMemorySystem::lookup`. -/
def lookup (cfg : PoolConfig) (vms : VMS) (st : MState) (virt : Nat) :
    Except Fault (Nat × Protection × Mode) :=
  match phys_to_virt cfg vms.root with
  | .error e => .error e
  | .ok _ =>
    match offsetVPN virt 0 with
    | .error e => .error e
    | .ok vpn0 =>
      if PageTableEntry.isValid (readW st vms.root vpn0) = false then
        .error (.memErr .InvalidAddress)
      else
        match selectPt1Lookup vms vpn0 with
        | .error e => .error e
        | .ok pt1 =>
          match phys_to_virt cfg pt1 with
          | .error e => .error e
          | .ok _ =>
            match offsetVPN virt 1 with
            | .error e => .error e
            | .ok vpn1 =>
              match resolveL3Lookup st pt1 vpn1 with
              | .error e => .error e
              | .ok pt2 =>
                match phys_to_virt cfg pt2 with
                | .error e => .error e
                | .ok _ =>
                  match offsetVPN virt 2 with
                  | .error e => .error e
                  | .ok vpn2 =>
                    if PageTableEntry.isValid (readW st pt2 vpn2) = false then
                      .error (.memErr .NoSuchAddress)
                    else
                      match protOf (readW st pt2 vpn2) with
                      | .error e => .error e
                      | .ok protection =>
                        .ok (PageTableEntry.getPhysicalPageNumber (readW st pt2 vpn2),
                          protection,
                          if PageTableEntry.isUserAccessible (readW st pt2 vpn2) then Mode.User
                          else Mode.Kernel)

/-- `VirtualMemorySystem::remove` as it stands in `src/mm/mapping.rs`: the
body is `todo!()`, which panics unconditionally. -/
def remove (cfg : PoolConfig) (vms : VMS) (st : MState) (virt : Nat) :
    Except Fault MState :=
  .error .panicked

/-- `VirtualMemorySystem::update` as it stands in `src/mm/mapping.rs`: the
body is `todo!()`, which panics unconditionally. -/
def update (cfg : PoolConfig) (vms : VMS) (st : MState) (virt : Nat)
    (prot : Protection) (mode : Mode) : Except Fault MState :=
  .error .panicked

theorem phys_to_virt_ok (cfg : PoolConfig) (p : Nat) (h : InPhysPool cfg p) :
    phys_to_virt cfg p = .ok (cfg.virtStart + (p - cfg.physStart)) := by
  rw [phys_to_virt, if_pos h]

theorem phys_to_virt_ok_inv (cfg : PoolConfig) (p v : Nat)
    (h : phys_to_virt cfg p = .ok v) : InPhysPool cfg p := by
  rw [phys_to_virt] at h
  by_cases hc : InPhysPool cfg p
  · exact hc
  · rw [if_neg hc] at h
    exact absurd h (by simp)

theorem vpn_and_lt (x k : Nat) : (x >>> k) &&& 0x1ff < 512 :=
  lt_of_le_of_lt Nat.and_le_right (by norm_num)

theorem readW_writeW_self (st : MState) (f i v : Nat) :
    readW (writeW st f i v) f i = v := by
  simp [readW, writeW]

theorem readW_writeW_ne (st : MState) (f i v f1 i1 : Nat)
    (h : wordIdx f1 i1 ≠ wordIdx f i) :
    readW (writeW st f i v) f1 i1 = readW st f1 i1 := by
  simp [readW, writeW, h]

theorem wordIdx_ne_of_frame_ne (f f1 i i1 : Nat) (hf : f % 4096 = 0)
    (hf1 : f1 % 4096 = 0) (hne : f ≠ f1) (hi : i < 512) (hi1 : i1 < 512) :
    wordIdx f i ≠ wordIdx f1 i1 := by
  simp only [wordIdx]
  omega

theorem readW_zeroFrame_ne (st : MState) (f f1 i1 : Nat) (hf : f % 4096 = 0)
    (hf1 : f1 % 4096 = 0) (hne : f1 ≠ f) (hi1 : i1 < 512) :
    readW (zeroFrame st f) f1 i1 = readW st f1 i1 := by
  simp only [readW, zeroFrame, wordIdx]
  rw [if_neg (by omega)]

theorem selectPt1_imp_lookup (vms : VMS) (vpn0 : Nat) (mode : Mode) (pt1 : Nat)
    (h : selectPt1 vms vpn0 mode = .ok pt1) : selectPt1Lookup vms vpn0 = .ok pt1 := by
  rw [selectPt1] at h
  rw [selectPt1Lookup]
  by_cases h0 : vpn0 = 0 ∨ vpn0 = 1 ∨ vpn0 = 2 ∨ vpn0 = 3
  · rw [if_pos h0] at h
    rw [if_pos h0]
    by_cases hm : mode ≠ Mode.User
    · rw [if_pos hm] at h
      exact absurd h (by simp)
    · rw [if_neg hm] at h
      exact h
  · rw [if_neg h0] at h
    rw [if_neg h0]
    by_cases h5 : vpn0 = 508 ∨ vpn0 = 509 ∨ vpn0 = 510 ∨ vpn0 = 511
    · rw [if_pos h5] at h
      rw [if_pos h5]
      by_cases hm : mode ≠ Mode.Kernel
      · rw [if_pos hm] at h
        exact absurd h (by simp)
      · rw [if_neg hm] at h
        exact h
    · rw [if_neg h5] at h
      exact absurd h (by simp)

theorem allocate_ok_mem (cfg : PoolConfig) (st : MState) (r : Nat × MState)
    (h : allocate cfg st = .ok r) :
    ∀ k, r.2.mem k = if r.1 / 8 ≤ k ∧ k < r.1 / 8 + 512 then 0 else st.mem k := by
  rw [allocate, allocateRaw] at h
  cases hf : findFree st.bitmap with
  | none =>
    rw [hf] at h
    exact absurd h (by simp)
  | some t =>
    obtain ⟨idx, off, bm⟩ := t
    rw [hf] at h
    dsimp only [] at h
    by_cases hc : (cfg.virtStart + (64 * idx + off) * PAGE_SIZE) % PAGE_SIZE = 0 ∧
        cfg.virtStart ≤ cfg.virtStart + (64 * idx + off) * PAGE_SIZE ∧
        cfg.virtStart + (64 * idx + off) * PAGE_SIZE < cfg.virtStart + cfg.size
    · rw [virt_to_phys, if_pos hc] at h
      dsimp only [] at h
      rw [if_pos hc] at h
      simp only [Except.ok.injEq] at h
      intro k
      rw [← h]
      rfl
    · rw [virt_to_phys, if_neg hc] at h
      dsimp only [] at h
      exact absurd h (by simp)

theorem setPhysicalPageNumber_ok_inv (pte p w : Nat)
    (h : PageTableEntry.setPhysicalPageNumber pte p = .ok w) :
    w = PageTableEntry.setPPNWord pte p ∧ p < PageTableEntry.PPN_SIZE := by
  rw [PageTableEntry.setPhysicalPageNumber] at h
  by_cases hp : p < PageTableEntry.PPN_SIZE
  · rw [if_pos hp] at h
    simp only [Except.ok.injEq] at h
    exact ⟨h.symm, hp⟩
  · rw [if_neg hp] at h
    exact absurd h (by simp)

theorem leafWord_fields (pte2 p : Nat) (prot : Protection) (mode : Mode) (w : Nat)
    (h : leafWord pte2 p prot mode = .ok w) :
    PageTableEntry.isValid w = true ∧
    PageTableEntry.isReadable w = prot.isReadable ∧
    PageTableEntry.isWritable w = prot.isWritable ∧
    PageTableEntry.isExecutable w = prot.isExecutable ∧
    PageTableEntry.isUserAccessible w = (mode == Mode.User) ∧
    PageTableEntry.getPhysicalPageNumber w = p := by
  rw [leafWord] at h
  cases hset : PageTableEntry.setPhysicalPageNumber pte2 p with
  | error e =>
    rw [hset] at h
    exact absurd h (by simp)
  | ok w0 =>
    rw [hset] at h
    dsimp only [] at h
    simp only [Except.ok.injEq] at h
    obtain ⟨hw0, hp⟩ := setPhysicalPageNumber_ok_inv pte2 p w0 hset
    subst hw0
    rw [← h]
    refine ⟨?_, ?_, ?_, ?_, ?_, ?_⟩
    · rw [isValid_markAsValid]
    · rw [isReadable_markAsValid, isReadable_markAsUserAccessible,
        isReadable_markAsExecutable, isReadable_markAsWritable, isReadable_markAsReadable]
    · rw [isWritable_markAsValid, isWritable_markAsUserAccessible,
        isWritable_markAsExecutable, isWritable_markAsWritable]
    · rw [isExecutable_markAsValid, isExecutable_markAsUserAccessible,
        isExecutable_markAsExecutable]
    · rw [isUserAccessible_markAsValid, isUserAccessible_markAsUserAccessible]
    · rw [getPPN_markAsValid, getPPN_markAsUserAccessible, getPPN_markAsExecutable,
        getPPN_markAsWritable, getPPN_markAsReadable, getPPN_setPPNWord _ _ hp]

theorem protOf_decode (w : Nat) (prot : Protection)
    (hR : PageTableEntry.isReadable w = prot.isReadable)
    (hW : PageTableEntry.isWritable w = prot.isWritable)
    (hX : PageTableEntry.isExecutable w = prot.isExecutable) :
    protOf w = .ok prot := by
  cases prot <;>
    simp [protOf, hR, hW, hX, Protection.isReadable, Protection.isWritable,
      Protection.isExecutable]

theorem pte1New_fields (w0 f : Nat) (hf : f < PageTableEntry.PPN_SIZE)
    (hR : PageTableEntry.isReadable w0 = false)
    (hW : PageTableEntry.isWritable w0 = false)
    (hX : PageTableEntry.isExecutable w0 = false)
    (hU : PageTableEntry.isUserAccessible w0 = false) :
    PageTableEntry.isValid
        (PageTableEntry.markAsValid (PageTableEntry.setPPNWord w0 f) true) = true ∧
    PageTableEntry.isInnerPageTable
        (PageTableEntry.markAsValid (PageTableEntry.setPPNWord w0 f) true) = true ∧
    PageTableEntry.isUserAccessible
        (PageTableEntry.markAsValid (PageTableEntry.setPPNWord w0 f) true) = false ∧
    PageTableEntry.getPhysicalPageNumber
        (PageTableEntry.markAsValid (PageTableEntry.setPPNWord w0 f) true) = f := by
  refine ⟨?_, ?_, ?_, ?_⟩
  · rw [isValid_markAsValid]
  · rw [PageTableEntry.isInnerPageTable, isReadable_markAsValid, isReadable_setPPNWord, hR,
      isWritable_markAsValid, isWritable_setPPNWord, hW,
      isExecutable_markAsValid, isExecutable_setPPNWord, hX]
    rfl
  · rw [isUserAccessible_markAsValid, isUserAccessible_setPPNWord, hU]
  · rw [getPPN_markAsValid, getPPN_setPPNWord _ _ hf]

theorem readW_allocate_ne (cfg : PoolConfig) (st : MState) (r : Nat × MState)
    (f i : Nat) (halloc : allocate cfg st = .ok r) (hfal : f % 4096 = 0)
    (hral : r.1 % 4096 = 0) (hne : f ≠ r.1) (hi : i < 512) :
    readW r.2 f i = readW st f i := by
  have hm := allocate_ok_mem cfg st r halloc
  show r.2.mem (wordIdx f i) = st.mem (wordIdx f i)
  rw [hm (wordIdx f i), if_neg]
  simp only [wordIdx]
  omega

theorem resolveL3Lookup_ok (st : MState) (pt1 vpn1 : Nat)
    (hv : PageTableEntry.isValid (readW st pt1 vpn1) = true)
    (hinner : PageTableEntry.isInnerPageTable (readW st pt1 vpn1) = true)
    (huser : PageTableEntry.isUserAccessible (readW st pt1 vpn1) = false) :
    resolveL3Lookup st pt1 vpn1 =
      .ok (PageTableEntry.getPhysicalPageNumber (readW st pt1 vpn1)) := by
  rw [resolveL3Lookup]
  simp [hv, hinner, huser]

theorem lookup_assembly (cfg : PoolConfig) (vms : VMS) (st2 : MState) (virt : Nat)
    (pt1 pt2 physAddr : Nat) (prot : Protection) (mode : Mode)
    (hrootPool : InPhysPool cfg vms.root)
    (hv0 : PageTableEntry.isValid (readW st2 vms.root ((virt >>> 30) &&& 0x1ff)) = true)
    (hsel : selectPt1Lookup vms ((virt >>> 30) &&& 0x1ff) = .ok pt1)
    (hpt1Pool : InPhysPool cfg pt1)
    (hres : resolveL3Lookup st2 pt1 ((virt >>> 21) &&& 0x1ff) = .ok pt2)
    (hpt2Pool : InPhysPool cfg pt2)
    (hleafValid : PageTableEntry.isValid (readW st2 pt2 ((virt >>> 12) &&& 0x1ff)) = true)
    (hprot : protOf (readW st2 pt2 ((virt >>> 12) &&& 0x1ff)) = .ok prot)
    (huser : PageTableEntry.isUserAccessible (readW st2 pt2 ((virt >>> 12) &&& 0x1ff)) =
      (mode == Mode.User))
    (hppn : PageTableEntry.getPhysicalPageNumber
      (readW st2 pt2 ((virt >>> 12) &&& 0x1ff)) = physAddr) :
    lookup cfg vms st2 virt = .ok (physAddr, prot, mode) := by
  rw [lookup, phys_to_virt_ok cfg vms.root hrootPool]
  dsimp only [offsetVPN]
  rw [hv0, if_neg (by simp), hsel]
  dsimp only []
  rw [phys_to_virt_ok cfg pt1 hpt1Pool]
  dsimp only [offsetVPN]
  rw [hres]
  dsimp only []
  rw [phys_to_virt_ok cfg pt2 hpt2Pool]
  dsimp only [offsetVPN]
  rw [hleafValid, if_neg (by simp), hprot]
  dsimp only []
  rw [hppn, huser]
  cases mode <;> rfl

end MM

/-- C5: the claim describes `remove` as clearing the leaf's V bit so that a
subsequent lookup fails with `NoSuchAddress`; but the body of
`VirtualMemorySystem::remove` in `src/mm/mapping.rs` is `todo!()`, so every
invocation panics instead of returning `Ok`. -/
theorem c5_remove_is_todo (cfg : MM.PoolConfig) (vms : MM.VMS) (st : MM.MState)
    (virt : Nat) : MM.remove cfg vms st virt = .error .panicked := rfl

theorem initBitmapLoop_closed_form : ∀ n, n ≤ 4096 →
    MM.initBitmapLoop n = (List.range 64).map (fun k => if 64 * k < n then 1 <<< k else 0) := by
  intro n
  induction n with
  | zero =>
    intro _
    decide
  | succ n ih =>
    intro hn
    have hq : n / 64 < 64 := by omega
    rw [MM.initBitmapLoop, ih (by omega)]
    apply List.ext_getElem
    · simp
    intro k hk1 hk2
    have hk : k < 64 := by simpa using hk2
    simp only [List.getElem_set, List.getElem_map, List.getElem_range,
      List.getD_eq_getElem?_getD, List.getElem?_map]
    by_cases hkq : n / 64 = k
    · rw [if_pos hkq]
      rw [List.getElem?_range hq]
      simp only [Option.map_some', Option.getD_some]
      rw [if_pos (show 64 * k < n + 1 by omega)]
      by_cases h2 : 64 * (n / 64) < n
      · rw [if_pos h2, hkq, Nat.or_self]
      · rw [if_neg h2, hkq, Nat.zero_or]
    · rw [if_neg hkq]
      by_cases h3 : 64 * k < n
      · rw [if_pos h3, if_pos (by omega)]
      · rw [if_neg h3, if_neg (show ¬64 * k < n + 1 by omega)]

/-- C3: `PageFrameAllocator::initialize` computes `offset = i / u64::BITS`
instead of `i % u64::BITS`, so over a 16 MiB pool (4096 frames) it marks only
64 bits free (bit `k` of word `k`), not 4096; in particular frame 1's bit
(bit 1 of word 0) stays clear, so `allocate` can succeed at most 64 times
rather than the claimed 4096. -/
theorem c3_initialize_marks_only_64_frames :
    MM.countFree (MM.initBitmapLoop 4096) = 64 ∧
      (MM.initBitmapLoop 4096).getD 0 0 &&& (1 <<< 1) = 0 ∧ (64 : Nat) ≠ 4096 := by
  rw [initBitmapLoop_closed_form 4096 (le_refl _)]
  refine ⟨by decide, by decide, by decide⟩

/-- C7: a frame returned by a successful `allocate` (and `early_allocate`,
which runs the same `__allocate` body) is page-aligned, lies inside the
pool's physical bounds, and all 512 of its 64-bit words read as zero. -/
theorem c7_allocate_zeroed_aligned_in_pool (cfg : MM.PoolConfig) (st : MM.MState)
    (p : Nat) (st' : MM.MState)
    (hphys : cfg.physStart % MM.PAGE_SIZE = 0) (hsize : cfg.size % MM.PAGE_SIZE = 0)
    (h : MM.allocate cfg st = .ok (p, st')) :
    p % MM.PAGE_SIZE = 0 ∧ cfg.physStart ≤ p ∧
      p + MM.PAGE_SIZE ≤ cfg.physStart + cfg.size ∧
      (∀ i, i < 512 → MM.readW st' p i = 0) ∧
      MM.early_allocate cfg st = MM.allocate cfg st := by
  rw [MM.allocate, MM.allocateRaw] at h
  cases hf : MM.findFree st.bitmap with
  | none =>
    rw [hf] at h
    exact absurd h (by simp)
  | some r =>
    obtain ⟨idx, off, bm⟩ := r
    rw [hf] at h
    dsimp only [] at h
    by_cases hc : (cfg.virtStart + (64 * idx + off) * MM.PAGE_SIZE) % MM.PAGE_SIZE = 0 ∧
        cfg.virtStart ≤ cfg.virtStart + (64 * idx + off) * MM.PAGE_SIZE ∧
        cfg.virtStart + (64 * idx + off) * MM.PAGE_SIZE < cfg.virtStart + cfg.size
    · rw [MM.virt_to_phys, if_pos hc] at h
      dsimp only [] at h
      rw [if_pos hc] at h
      simp only [Except.ok.injEq, Prod.mk.injEq] at h
      obtain ⟨hp, hst⟩ := h
      obtain ⟨hal, hge, hlt⟩ := hc
      have hPS : MM.PAGE_SIZE = 4096 := rfl
      rw [hPS] at hphys hsize hal hlt hp hst ⊢
      rw [hp] at hst
      have halign : p % 4096 = 0 := by omega
      refine ⟨by omega, by omega, by omega, ?_, rfl⟩
      intro i hi
      rw [← hst]
      simp only [MM.readW, MM.zeroFrame, MM.wordIdx]
      rw [if_pos (by omega)]
    · rw [MM.virt_to_phys, if_neg hc] at h
      dsimp only [] at h
      exact absurd h (by simp)

/-- Pool configuration used by the concrete memory-management witnesses: a
16 MiB pool with physical and virtual base `0x8000_0000`. -/
def wCfg : MM.PoolConfig := ⟨0x80000000, 0x80000000, 0x1000000⟩

/-- Allocator state for the C7 witness: frame 0 free, memory filled with a
nonzero pattern so that zero-on-allocate is observable. -/
def c7St : MM.MState := ⟨(1 <<< 0) :: List.replicate 63 0, fun _ => 7⟩

/-- State after the C7 witness allocation. -/
def c7After : MM.MState :=
  match MM.allocate wCfg c7St with
  | .ok r => r.2
  | .error _ => c7St

/-- Witness for C7 at a concrete pool and allocator state. -/
theorem c7_allocate_zeroed_aligned_in_pool_witness :
    (wCfg.physStart % MM.PAGE_SIZE = 0 ∧ wCfg.size % MM.PAGE_SIZE = 0 ∧
      MM.allocate wCfg c7St = .ok (0x80000000, c7After)) ∧
    ((0x80000000 : Nat) % MM.PAGE_SIZE = 0 ∧ wCfg.physStart ≤ 0x80000000 ∧
      0x80000000 + MM.PAGE_SIZE ≤ wCfg.physStart + wCfg.size ∧
      (∀ i, i < 512 → MM.readW c7After 0x80000000 i = 0) ∧
      MM.early_allocate wCfg c7St = MM.allocate wCfg c7St) :=
  ⟨⟨rfl, rfl, rfl⟩,
    c7_allocate_zeroed_aligned_in_pool wCfg c7St 0x80000000 c7After rfl rfl rfl⟩

/-- Address-space layout used by the concrete mapping witnesses: root table
at `0x8000_0000`, user level-1 tables at `0x8000_1000..0x8000_4000`, kernel
level-1 tables at `0x8000_5000..0x8000_8000`. -/
def wVMS : MM.VMS :=
  ⟨0x80000000, [0x80001000, 0x80002000, 0x80003000, 0x80004000],
    [0x80005000, 0x80006000, 0x80007000, 0x80008000]⟩

/-- Kernel-half test address of spec scenario 2 (`VPN[0] = 510`,
`VPN[1] = 1`, `VPN[2] = 0`). -/
def wVirt : Nat := 0xffffffff80200000

/-- Memory state whose root entry for `wVirt` is invalid (level-0 miss). -/
def c6StA : MM.MState := ⟨List.replicate 64 0, fun _ => 0⟩

/-- Memory state with a valid root entry for `wVirt` but an invalid level-1
entry (level-1 miss). -/
def c6StB : MM.MState :=
  ⟨List.replicate 64 0, fun k => if k = MM.wordIdx 0x80000000 510 then 1 else 0⟩

/-- Memory state with valid root and level-1 entries for `wVirt` (the level-2
table frame is `0x8000_9000`) but an invalid leaf (level-2 miss). -/
def c6StC : MM.MState :=
  ⟨List.replicate 64 0, fun k =>
    if k = MM.wordIdx 0x80000000 510 then 1
    else if k = MM.wordIdx 0x80007000 1 then (0x80009000 <<< 10) ||| 1
    else 0⟩

/-- C6 counterexample: at a level-0 miss (invalid root entry), `lookup`
returns `InvalidAddress`, not the `NoSuchAddress` the claim requires for
every invalid step of the walk. -/
theorem c6_counterexample_level0_invalid_address :
    MM.lookup wCfg wVMS c6StA wVirt = .error (.memErr .InvalidAddress) ∧
      MemoryError.InvalidAddress ≠ MemoryError.NoSuchAddress :=
  ⟨rfl, by decide⟩

/-- C6 amended: a walk that hits an invalid entry at level 1 or level 2
fails with `NoSuchAddress`; an invalid entry at level 0 fails with
`InvalidAddress` instead (the spec's "half-mismatch or level-0 miss"
error). -/
theorem c6_lookup_invalid_walk_errors (cfg : MM.PoolConfig) (vms : MM.VMS)
    (st : MM.MState) (virt : Nat) :
    (MM.InPhysPool cfg vms.root →
      PageTableEntry.isValid (MM.readW st vms.root ((virt >>> 30) &&& 0x1ff)) = false →
      MM.lookup cfg vms st virt = .error (.memErr .InvalidAddress)) ∧
    (∀ pt1, MM.InPhysPool cfg vms.root →
      PageTableEntry.isValid (MM.readW st vms.root ((virt >>> 30) &&& 0x1ff)) = true →
      MM.selectPt1Lookup vms ((virt >>> 30) &&& 0x1ff) = .ok pt1 →
      MM.InPhysPool cfg pt1 →
      PageTableEntry.isValid (MM.readW st pt1 ((virt >>> 21) &&& 0x1ff)) = false →
      MM.lookup cfg vms st virt = .error (.memErr .NoSuchAddress)) ∧
    (∀ pt1 pt2, MM.InPhysPool cfg vms.root →
      PageTableEntry.isValid (MM.readW st vms.root ((virt >>> 30) &&& 0x1ff)) = true →
      MM.selectPt1Lookup vms ((virt >>> 30) &&& 0x1ff) = .ok pt1 →
      MM.InPhysPool cfg pt1 →
      MM.resolveL3Lookup st pt1 ((virt >>> 21) &&& 0x1ff) = .ok pt2 →
      MM.InPhysPool cfg pt2 →
      PageTableEntry.isValid (MM.readW st pt2 ((virt >>> 12) &&& 0x1ff)) = false →
      MM.lookup cfg vms st virt = .error (.memErr .NoSuchAddress)) := by
  refine ⟨?_, ?_, ?_⟩
  · intro hpool hinv
    rw [MM.lookup, MM.phys_to_virt_ok cfg vms.root hpool]
    simp [MM.offsetVPN, hinv]
  · intro pt1 hpool hvalid hsel hpool1 hinv1
    rw [MM.lookup, MM.phys_to_virt_ok cfg vms.root hpool]
    simp [MM.offsetVPN, hvalid, hsel, MM.phys_to_virt_ok cfg pt1 hpool1,
      MM.resolveL3Lookup, hinv1]
  · intro pt1 pt2 hpool hvalid hsel hpool1 hres hpool2 hinv2
    rw [MM.lookup, MM.phys_to_virt_ok cfg vms.root hpool]
    simp [MM.offsetVPN, hvalid, hsel, MM.phys_to_virt_ok cfg pt1 hpool1, hres,
      MM.phys_to_virt_ok cfg pt2 hpool2, hinv2]

/-- Witness for the amended C6: all three walk-failure shapes at concrete
states. -/
theorem c6_lookup_invalid_walk_errors_witness :
    (MM.lookup wCfg wVMS c6StA wVirt = .error (.memErr .InvalidAddress)) ∧
    (MM.lookup wCfg wVMS c6StB wVirt = .error (.memErr .NoSuchAddress)) ∧
    (MM.lookup wCfg wVMS c6StC wVirt = .error (.memErr .NoSuchAddress)) :=
  ⟨(c6_lookup_invalid_walk_errors wCfg wVMS c6StA wVirt).1 (by decide) rfl,
    (c6_lookup_invalid_walk_errors wCfg wVMS c6StB wVirt).2.1 0x80007000
      (by decide) rfl rfl (by decide) rfl,
    (c6_lookup_invalid_walk_errors wCfg wVMS c6StC wVirt).2.2 0x80007000 0x80009000
      (by decide) rfl rfl (by decide) rfl (by decide) rfl⟩

/-- C1: when `create(p, v, prot, mode)` returns `Ok`, a subsequent
`lookup(v)` returns `Ok` with exactly the physical page `p`, the protection
`prot` and the mode `mode` that were passed to `create`. The separation
hypotheses say that the three page-table frames touched by the walk are
pairwise distinct and that an invalid level-1 entry carries no stale
R/W/X/U bits - both are invariants the boot-time table construction and the
zero-on-allocate page allocator maintain. -/
theorem c1_create_lookup_roundtrip (cfg : MM.PoolConfig) (vms : MM.VMS)
    (st : MM.MState) (physAddr virt : Nat) (prot : MM.Protection) (mode : MM.Mode)
    (pt1 pt2 : Nat) (stMid : MM.MState) (st2 : MM.MState)
    (hpt1 : MM.selectPt1 vms ((virt >>> 30) &&& 0x1ff) mode = .ok pt1)
    (hres : MM.resolveL3Create cfg st pt1 ((virt >>> 21) &&& 0x1ff) = .ok (pt2, stMid))
    (hsep1 : pt1 ≠ vms.root)
    (hsep2 : pt2 ≠ vms.root)
    (hsep3 : pt2 ≠ pt1)
    (hclean : PageTableEntry.isValid (MM.readW st pt1 ((virt >>> 21) &&& 0x1ff)) = false →
      (PageTableEntry.isReadable (MM.readW st pt1 ((virt >>> 21) &&& 0x1ff)) = false ∧
        PageTableEntry.isWritable (MM.readW st pt1 ((virt >>> 21) &&& 0x1ff)) = false ∧
        PageTableEntry.isExecutable (MM.readW st pt1 ((virt >>> 21) &&& 0x1ff)) = false ∧
        PageTableEntry.isUserAccessible
          (MM.readW st pt1 ((virt >>> 21) &&& 0x1ff)) = false))
    (hcreate : MM.create cfg vms st physAddr virt prot mode = .ok st2) :
    MM.lookup cfg vms st2 virt = .ok (physAddr, prot, mode) := by
  rw [MM.create] at hcreate
  cases hroot : MM.phys_to_virt cfg vms.root with
  | error e =>
    rw [hroot] at hcreate
    exact absurd hcreate (by simp)
  | ok vr =>
  rw [hroot] at hcreate
  dsimp only [MM.offsetVPN] at hcreate
  by_cases h0 : PageTableEntry.isValid
      (MM.readW st vms.root ((virt >>> 30) &&& 0x1ff)) = false
  · rw [if_pos h0] at hcreate
    exact absurd hcreate (by simp)
  rw [if_neg h0] at hcreate
  simp only [Bool.not_eq_false] at h0
  rw [hpt1] at hcreate
  dsimp only [] at hcreate
  cases hp1 : MM.phys_to_virt cfg pt1 with
  | error e =>
    rw [hp1] at hcreate
    exact absurd hcreate (by simp)
  | ok vp1 =>
  rw [hp1] at hcreate
  dsimp only [MM.offsetVPN] at hcreate
  rw [hres] at hcreate
  dsimp only [] at hcreate
  cases hp2 : MM.phys_to_virt cfg pt2 with
  | error e =>
    rw [hp2] at hcreate
    exact absurd hcreate (by simp)
  | ok vp2 =>
  rw [hp2] at hcreate
  dsimp only [MM.offsetVPN] at hcreate
  by_cases h2 : PageTableEntry.isValid
      (MM.readW stMid pt2 ((virt >>> 12) &&& 0x1ff)) = true
  · rw [if_pos h2] at hcreate
    exact absurd hcreate (by simp)
  rw [if_neg h2] at hcreate
  cases hleaf : MM.leafWord (MM.readW stMid pt2 ((virt >>> 12) &&& 0x1ff))
      physAddr prot mode with
  | error e =>
    rw [hleaf] at hcreate
    exact absurd hcreate (by simp)
  | ok w =>
  rw [hleaf] at hcreate
  dsimp only [] at hcreate
  simp only [Except.ok.injEq] at hcreate
  subst hcreate
  have hrootPool := MM.phys_to_virt_ok_inv cfg vms.root vr hroot
  have hpt1Pool := MM.phys_to_virt_ok_inv cfg pt1 vp1 hp1
  have hpt2Pool := MM.phys_to_virt_ok_inv cfg pt2 vp2 hp2
  have hv0lt : (virt >>> 30) &&& 0x1ff < 512 := MM.vpn_and_lt virt 30
  have hv1lt : (virt >>> 21) &&& 0x1ff < 512 := MM.vpn_and_lt virt 21
  have hv2lt : (virt >>> 12) &&& 0x1ff < 512 := MM.vpn_and_lt virt 12
  obtain ⟨hwV, hwR, hwW, hwX, hwU, hwP⟩ := MM.leafWord_fields _ _ _ _ _ hleaf
  have hne_root_pt2 : MM.wordIdx vms.root ((virt >>> 30) &&& 0x1ff) ≠
      MM.wordIdx pt2 ((virt >>> 12) &&& 0x1ff) :=
    MM.wordIdx_ne_of_frame_ne _ _ _ _ hrootPool.1 hpt2Pool.1 (Ne.symm hsep2) hv0lt hv2lt
  have hne_pt1_pt2 : MM.wordIdx pt1 ((virt >>> 21) &&& 0x1ff) ≠
      MM.wordIdx pt2 ((virt >>> 12) &&& 0x1ff) :=
    MM.wordIdx_ne_of_frame_ne _ _ _ _ hpt1Pool.1 hpt2Pool.1 (Ne.symm hsep3) hv1lt hv2lt
  have hleafRead : MM.readW (MM.writeW stMid pt2 ((virt >>> 12) &&& 0x1ff) w) pt2
      ((virt >>> 12) &&& 0x1ff) = w := MM.readW_writeW_self stMid pt2 _ w
  have hsel := MM.selectPt1_imp_lookup vms ((virt >>> 30) &&& 0x1ff) mode pt1 hpt1
  rw [MM.resolveL3Create] at hres
  by_cases hv1 : PageTableEntry.isValid (MM.readW st pt1 ((virt >>> 21) &&& 0x1ff)) = true
  · rw [if_pos hv1] at hres
    by_cases hass : (PageTableEntry.isInnerPageTable
          (MM.readW st pt1 ((virt >>> 21) &&& 0x1ff)) &&
        !PageTableEntry.isUserAccessible
          (MM.readW st pt1 ((virt >>> 21) &&& 0x1ff))) = true
    · rw [if_pos hass] at hres
      simp only [Except.ok.injEq, Prod.mk.injEq] at hres
      obtain ⟨hpt2eq, hstMid⟩ := hres
      subst hstMid
      simp only [Bool.and_eq_true, Bool.not_eq_true'] at hass
      obtain ⟨hinner, huser1⟩ := hass
      have hpte1st2 : MM.readW (MM.writeW st pt2 ((virt >>> 12) &&& 0x1ff) w) pt1
          ((virt >>> 21) &&& 0x1ff) = MM.readW st pt1 ((virt >>> 21) &&& 0x1ff) :=
        MM.readW_writeW_ne st pt2 _ w pt1 _ hne_pt1_pt2
      have hv0st2 : MM.readW (MM.writeW st pt2 ((virt >>> 12) &&& 0x1ff) w) vms.root
          ((virt >>> 30) &&& 0x1ff) = MM.readW st vms.root ((virt >>> 30) &&& 0x1ff) :=
        MM.readW_writeW_ne st pt2 _ w vms.root _ hne_root_pt2
      refine MM.lookup_assembly cfg vms _ virt pt1 pt2 physAddr prot mode hrootPool ?_
        hsel hpt1Pool ?_ hpt2Pool ?_ ?_ ?_ ?_
      · rw [hv0st2, h0]
      · rw [MM.resolveL3Lookup_ok _ pt1 _ (by rw [hpte1st2]; exact hv1)
          (by rw [hpte1st2]; exact hinner) (by rw [hpte1st2]; exact huser1)]
        rw [hpte1st2, hpt2eq]
      · rw [hleafRead, hwV]
      · rw [hleafRead]
        exact MM.protOf_decode w prot hwR hwW hwX
      · rw [hleafRead, hwU]
      · rw [hleafRead, hwP]
    · rw [if_neg hass] at hres
      exact absurd hres (by simp)
  · rw [if_neg hv1] at hres
    simp only [Bool.not_eq_true] at hv1
    cases halloc : MM.allocate cfg st with
    | error e =>
      rw [halloc] at hres
      exact absurd hres (by simp)
    | ok r =>
    rw [halloc] at hres
    dsimp only [] at hres
    cases hsetp : PageTableEntry.setPhysicalPageNumber
        (MM.readW r.2 pt1 ((virt >>> 21) &&& 0x1ff)) r.1 with
    | error e =>
      rw [hsetp] at hres
      exact absurd hres (by simp)
    | ok w1 =>
    rw [hsetp] at hres
    dsimp only [] at hres
    simp only [Except.ok.injEq, Prod.mk.injEq] at hres
    obtain ⟨hr1, hstMid⟩ := hres
    obtain ⟨hw1eq, hfPPN⟩ := MM.setPhysicalPageNumber_ok_inv _ _ _ hsetp
    have hW0 : MM.readW r.2 pt1 ((virt >>> 21) &&& 0x1ff) =
        MM.readW st pt1 ((virt >>> 21) &&& 0x1ff) := by
      refine MM.readW_allocate_ne cfg st r pt1 _ halloc hpt1Pool.1 ?_ ?_ hv1lt
      · rw [hr1]
        exact hpt2Pool.1
      · rw [hr1]
        exact Ne.symm hsep3
    obtain ⟨hcR, hcW, hcX, hcU⟩ := hclean hv1
    have hpte1Mid : MM.readW stMid pt1 ((virt >>> 21) &&& 0x1ff) =
        PageTableEntry.markAsValid (PageTableEntry.setPPNWord
          (MM.readW st pt1 ((virt >>> 21) &&& 0x1ff)) pt2) true := by
      rw [← hstMid, MM.readW_writeW_self, hw1eq, hW0, hr1]
    obtain ⟨hnV, hnI, hnU, hnP⟩ := MM.pte1New_fields
      (MM.readW st pt1 ((virt >>> 21) &&& 0x1ff)) pt2 (hr1 ▸ hfPPN) hcR hcW hcX hcU
    have hpte1st2 : MM.readW (MM.writeW stMid pt2 ((virt >>> 12) &&& 0x1ff) w) pt1
        ((virt >>> 21) &&& 0x1ff) = MM.readW stMid pt1 ((virt >>> 21) &&& 0x1ff) :=
      MM.readW_writeW_ne stMid pt2 _ w pt1 _ hne_pt1_pt2
    have hv0st2 : MM.readW (MM.writeW stMid pt2 ((virt >>> 12) &&& 0x1ff) w) vms.root
        ((virt >>> 30) &&& 0x1ff) = MM.readW st vms.root ((virt >>> 30) &&& 0x1ff) := by
      rw [MM.readW_writeW_ne stMid pt2 _ w vms.root _ hne_root_pt2, ← hstMid]
      rw [MM.readW_writeW_ne r.2 pt1 _ _ vms.root _
        (MM.wordIdx_ne_of_frame_ne _ _ _ _ hrootPool.1 hpt1Pool.1 (Ne.symm hsep1)
          hv0lt hv1lt)]
      refine MM.readW_allocate_ne cfg st r vms.root _ halloc hrootPool.1 ?_ ?_ hv0lt
      · rw [hr1]
        exact hpt2Pool.1
      · rw [hr1]
        exact Ne.symm hsep2
    refine MM.lookup_assembly cfg vms _ virt pt1 pt2 physAddr prot mode hrootPool ?_
      hsel hpt1Pool ?_ hpt2Pool ?_ ?_ ?_ ?_
    · rw [hv0st2, h0]
    · rw [MM.resolveL3Lookup_ok _ pt1 _ (by rw [hpte1st2, hpte1Mid]; exact hnV)
        (by rw [hpte1st2, hpte1Mid]; exact hnI) (by rw [hpte1st2, hpte1Mid]; exact hnU)]
      rw [hpte1st2, hpte1Mid, hnP]
    · rw [hleafRead, hwV]
    · rw [hleafRead]
      exact MM.protOf_decode w prot hwR hwW hwX
    · rw [hleafRead, hwU]
    · rw [hleafRead, hwP]

/-- Memory state for the C1 witness: the root entry for `wVirt` is a valid
inner entry, the level-1 entry is empty, and frame 16 (`0x8001_0000`) is the
only free frame, so `create` allocates it as the fresh level-2 table. -/
def c1St : MM.MState :=
  ⟨(1 <<< 16) :: List.replicate 63 0,
    fun k => if k = MM.wordIdx 0x80000000 510 then 1 else 0⟩

/-- Mid-state of the C1 witness walk (after the fresh level-2 table is
linked in). -/
def c1StMid : MM.MState :=
  match MM.resolveL3Create wCfg c1St 0x80007000 ((wVirt >>> 21) &&& 0x1ff) with
  | .ok r => r.2
  | .error _ => c1St

/-- State after the C1 witness `create`. -/
def c1After : MM.MState :=
  match MM.create wCfg wVMS c1St 0x80200000 wVirt MM.Protection.RW MM.Mode.Kernel with
  | .ok s => s
  | .error _ => c1St

/-- Witness for C1: spec scenario 2, `create(0x8020_0000,
0xffff_ffff_8020_0000, RW, Kernel)` then `lookup` of the same address. -/
theorem c1_create_lookup_roundtrip_witness :
    (MM.selectPt1 wVMS ((wVirt >>> 30) &&& 0x1ff) MM.Mode.Kernel = .ok 0x80007000 ∧
      MM.resolveL3Create wCfg c1St 0x80007000 ((wVirt >>> 21) &&& 0x1ff) =
        .ok (0x80010000, c1StMid) ∧
      (0x80007000 : Nat) ≠ wVMS.root ∧ (0x80010000 : Nat) ≠ wVMS.root ∧
      (0x80010000 : Nat) ≠ 0x80007000 ∧
      MM.create wCfg wVMS c1St 0x80200000 wVirt MM.Protection.RW MM.Mode.Kernel =
        .ok c1After) ∧
    MM.lookup wCfg wVMS c1After wVirt =
      .ok (0x80200000, MM.Protection.RW, MM.Mode.Kernel) :=
  ⟨⟨rfl, rfl, by decide, by decide, by decide, rfl⟩,
    c1_create_lookup_roundtrip wCfg wVMS c1St 0x80200000 wVirt MM.Protection.RW
      MM.Mode.Kernel 0x80007000 0x80010000 c1StMid c1After rfl rfl (by decide)
      (by decide) (by decide) (fun _ => ⟨rfl, rfl, rfl, rfl⟩) rfl⟩

namespace TrapDispatch

/-- `Interrupt` of `src/trap/cause.rs`. -/
inductive Interrupt where
  | SoftwareInterrupt
  | TimerInterrupt
  | ExternalInterrupt
  | Interrupt (n : Nat)
deriving DecidableEq, Repr

/-- `Exception` of `src/trap/cause.rs`. -/
inductive Exception where
  | InstructionMisalignedAddr
  | InstructionAccessFault
  | IllegalInstruction
  | Breakpoint
  | LoadMisalignedAddr
  | LoadAccessFault
  | StoreMisalignedAddr
  | StoreAccessFault
  | EnvCallUser
  | EnvCallSupervisor
  | InstructionPageFault
  | LoadPageFault
  | StorePageFault
  | Exception (n : Nat)
deriving DecidableEq, Repr

/-- `Trap` of `src/trap/cause.rs`. -/
inductive Trap where
  | Interrupt (i : Interrupt)
  | Exception (e : Exception)
deriving DecidableEq, Repr

/-- `From<SCause> for Trap`: bit 63 selects interrupt vs exception, the rest
is the cause code. -/
def Trap.fromSCause (scause : Nat) : Trap :=
  if scause &&& (1 <<< 63) ≠ 0 then
    match scause &&& complement64 (1 <<< 63) with
    | 1 => .Interrupt .SoftwareInterrupt
    | 5 => .Interrupt .TimerInterrupt
    | 9 => .Interrupt .ExternalInterrupt
    | n => .Interrupt (.Interrupt n)
  else
    match scause &&& complement64 (1 <<< 63) with
    | 0 => .Exception .InstructionMisalignedAddr
    | 1 => .Exception .InstructionAccessFault
    | 2 => .Exception .IllegalInstruction
    | 3 => .Exception .Breakpoint
    | 4 => .Exception .LoadMisalignedAddr
    | 5 => .Exception .LoadAccessFault
    | 6 => .Exception .StoreMisalignedAddr
    | 7 => .Exception .StoreAccessFault
    | 8 => .Exception .EnvCallUser
    | 9 => .Exception .EnvCallSupervisor
    | 12 => .Exception .InstructionPageFault
    | 13 => .Exception .LoadPageFault
    | 15 => .Exception .StorePageFault
    | n => .Exception (.Exception n)

/-- `Into<usize> for Interrupt`. -/
def Interrupt.index : TrapDispatch.Interrupt → Nat
  | .SoftwareInterrupt => 1
  | .TimerInterrupt => 5
  | .ExternalInterrupt => 9
  | .Interrupt n => n

/-- `Into<usize> for Exception`. -/
def Exception.index : TrapDispatch.Exception → Nat
  | .InstructionMisalignedAddr => 0
  | .InstructionAccessFault => 1
  | .IllegalInstruction => 2
  | .Breakpoint => 3
  | .LoadMisalignedAddr => 4
  | .LoadAccessFault => 5
  | .StoreMisalignedAddr => 6
  | .StoreAccessFault => 7
  | .EnvCallUser => 8
  | .EnvCallSupervisor => 9
  | .InstructionPageFault => 12
  | .LoadPageFault => 13
  | .StorePageFault => 15
  | .Exception n => n

/-- Per-hart pending arrays of the trap-handler registry
(`src/trap/handlers.rs`). -/
structure TrapState where
  pendingInterrupts : List Bool
  pendingExceptions : List Bool

/-- `TrapHandlers::enqueue`: mark the trap's slot in the pending array of its
class. -/
def enqueue (ts : TrapState) : Trap → TrapState
  | .Interrupt i =>
    { ts with pendingInterrupts := ts.pendingInterrupts.set (Interrupt.index i) true }
  | .Exception e =>
    { ts with pendingExceptions := ts.pendingExceptions.set (Exception.index e) true }

/-- The `trap_handler` entry of `src/trap/handler_interface.rs`. The handler
registry and the interrupt controller are passed as parameters: `prologue`
gives each registered handler's `epilogue_requested` result, and `claimReg`
is the value the controller's claim register reads for the external
interrupt (0 means no pending source and panics). The function mirrors the
source's step order: assert `user == 0`, decode `scause`, claim the external
source, run the prologue, send end-of-interrupt (a controller MMIO write
with no modelled state), mark the epilogue pending if requested - and then
hits `todo!("Execute pending epilogues")`, which panics. -/
def trap_handler (prologue : Trap → Bool) (claimReg : Nat) (ts : TrapState)
    (scause user : Nat) : Except Fault (Unit × TrapState) :=
  if user ≠ 0 then .error .panicked
  else
    match Trap.fromSCause scause with
    | .Interrupt .ExternalInterrupt =>
      if claimReg = 0 then .error .panicked
      else
        let trap := Trap.Interrupt (.Interrupt claimReg)
        let ts1 := if prologue trap then enqueue ts trap else ts
        let _ := ts1
        .error .panicked
    | trap =>
      let ts1 := if prologue trap then enqueue ts trap else ts
      let _ := ts1
      .error .panicked

end TrapDispatch

/-- C4: the claim says every invocation of the Rust trap handler drains the
pending epilogues and returns normally; but `trap_handler` in
`src/trap/handler_interface.rs` ends in `todo!("Execute pending
epilogues")`, so after the prologue, end-of-interrupt and pending-marking
steps it panics unconditionally and never returns to the assembly. -/
theorem c4_trap_handler_always_panics (prologue : TrapDispatch.Trap → Bool)
    (claimReg : Nat) (ts : TrapDispatch.TrapState) (scause user : Nat) :
    TrapDispatch.trap_handler prologue claimReg ts scause user = .error .panicked := by
  rw [TrapDispatch.trap_handler]
  split
  · rfl
  · split <;> (try split) <;> rfl

end RROS
